import Mathlib

/-!
# ezyr-lowcode-builder: the backend services

A shallow embedding of `ezyr-backend/server.js`, `ezyr-backend/backup.js` and
`ezyr-backend/blockConfigs.js`.

Conventions of the embedding.

* JavaScript numbers are modelled by `Int`: the integer-valued doubles of
  magnitude below 2^1024.  Row arithmetic goes through `jsAdd` and `jsSub`,
  which round to the nearest double as IEEE 754 does; `Date.now()` is an
  explicit argument `now`.
* A property that may be `undefined` is an `Option`; `none` is `undefined`.
* Third-party calls (google-auth-library, googleapis, axios) are arguments: a
  function giving the outcome of the call, `Except.error` standing for a thrown
  error.  Every such call made by a handler is also recorded in a log, so that
  "no call is made" is a statement about the log.
* The in-memory `tokenStore` is threaded through explicitly.
-/

namespace Ezyr

/-! ## JavaScript values -/

/-- A JavaScript value as the handlers see it: the JSON values of a parsed body,
`undefined`, and `paramsRef`, a reference to the `params` object of the request
being handled (it is what `params.dataFields = ... || params` stores). -/
inductive JsVal where
  | undefined
  | null
  | bool (b : Bool)
  | num (n : Int)
  | str (s : String)
  | arr (items : List JsVal)
  | obj (fields : List (String × JsVal))
  | paramsRef
  deriving Inhabited

/-- The fields of an object, in property order. -/
abbrev JsObject := List (String × JsVal)

/-- ToBoolean: `undefined`, `null`, `false`, `0` and `""` are falsy. -/
def JsVal.truthy : JsVal → Bool
  | .undefined => false
  | .null => false
  | .bool b => b
  | .num n => n != 0
  | .str s => s != ""
  | .arr _ => true
  | .obj _ => true
  | .paramsRef => true

/-- Truthiness of an optional string: `undefined` and `""` are falsy. -/
def truthyStr : Option String → Bool
  | none => false
  | some s => s != ""

/-- Truthiness of an optional number: `undefined` and `0` are falsy. -/
def truthyNum : Option Int → Bool
  | none => false
  | some n => n != 0

/-- The expression `a || b` on optional strings. -/
def orStr (a b : Option String) : Option String :=
  if truthyStr a then a else b

/-- The expression `a || b` on optional numbers. -/
def orNum (a b : Option Int) : Option Int :=
  if truthyNum a then a else b

/-- The expression `a ?? b`: only `undefined` (and `null`) give way to `b`. -/
def nullish {α : Type} (a b : Option α) : Option α :=
  match a with
  | some x => some x
  | none => b

/-- An optional string as a value. -/
def ofStr : Option String → JsVal
  | none => .undefined
  | some s => .str s

/-- An optional number as a value. -/
def ofNum : Option Int → JsVal
  | none => .undefined
  | some n => .num n

/-- A thrown error: its `message` and, for SDK errors, its numeric `code`. -/
structure JsError where
  message : String
  code : Option Int
  deriving DecidableEq, Repr

/-- What a handler sends: `res.status(status).json(body)`. -/
structure Response where
  status : Nat
  body : JsVal

/-- The call `res.json(body)` without an explicit status. -/
def Response.ok (body : JsVal) : Response := ⟨200, body⟩

/-- The body `{ error: msg }`. -/
def errorBody (msg : String) : JsVal := .obj [("error", .str msg)]

/-! ## Strings -/

/-- The method `s.startsWith(p)`. -/
def startsWith (s p : String) : Bool := p.data.isPrefixOf s.data

/-- The method `s.split(sep)` for a separator of one character. -/
def splitChars (sep : Char) : List Char → List (List Char)
  | [] => [[]]
  | c :: cs =>
    if c = sep then [] :: splitChars sep cs
    else
      match splitChars sep cs with
      | [] => [[c]]
      | w :: ws => (c :: w) :: ws

/-- The method `s.split(" ")`. -/
def splitSpace (s : String) : List String :=
  (splitChars ' ' s.data).map String.mk

/-- WhiteSpace and LineTerminator code points, the ones `trim` removes. -/
def isJsWhitespace (c : Char) : Bool :=
  let n := c.toNat
  n == 0x09 || n == 0x0A || n == 0x0B || n == 0x0C || n == 0x0D || n == 0x20 ||
  n == 0xA0 || n == 0x1680 || (0x2000 ≤ n && n ≤ 0x200A) || n == 0x2028 ||
  n == 0x2029 || n == 0x202F || n == 0x205F || n == 0x3000 || n == 0xFEFF

/-- The method `s.trim()`. -/
def jsTrim (s : String) : String :=
  String.mk (((s.data.dropWhile isJsWhitespace).reverse.dropWhile isJsWhitespace).reverse)

mutual
/-- ToString of a value, as a template literal applies it. -/
def JsVal.toStr : JsVal → String
  | .undefined => "undefined"
  | .null => "null"
  | .bool b => if b then "true" else "false"
  | .num n => toString n
  | .str s => s
  | .arr items => joinElems items
  | .obj _ => "[object Object]"
  | .paramsRef => "[object Object]"
/-- The method `Array.prototype.join` with the default separator: the elements
joined with commas, `null` and `undefined` elements being empty. -/
def joinElems : List JsVal → String
  | [] => ""
  | .undefined :: [] => ""
  | .null :: [] => ""
  | x :: [] => x.toStr
  | .undefined :: rest => "," ++ joinElems rest
  | .null :: rest => "," ++ joinElems rest
  | x :: rest => x.toStr ++ "," ++ joinElems rest
end

/-- The least `e`, counted from `e` on, with `a < 2 ^ (53 + e)`: the binary
exponent of the unit in the last place of a double of magnitude `a`. -/
def doubleExponent (a : Nat) : Nat → Nat → Nat
  | 0, e => e
  | fuel + 1, e => if a < 2 ^ (53 + e) then e else doubleExponent a fuel (e + 1)

/-- The double nearest to the integer `n`, ties going to the even significand
(IEEE 754 round-to-nearest-even); every integer up to 2^53 = 9007199254740992
in magnitude is a double. -/
def toDouble (n : Int) : Int :=
  let a := n.natAbs
  if a ≤ 9007199254740992 then n
  else
    let e := doubleExponent a 971 0
    let q := a / 2 ^ e
    let r := a % 2 ^ e
    let half := 2 ^ (e - 1)
    let q1 := if r > half ∨ (r = half ∧ q % 2 = 1) then q + 1 else q
    if n < 0 then - ((q1 * 2 ^ e : Nat) : Int) else ((q1 * 2 ^ e : Nat) : Int)

/-- The expression `a + b` on numbers: the exact sum, rounded to a double. -/
def jsAdd (a b : Int) : Int := toDouble (toDouble a + toDouble b)

/-- The expression `a - b` on numbers: the exact difference, rounded to a
double. -/
def jsSub (a b : Int) : Int := toDouble (toDouble a - toDouble b)

/-- The function `Number(v)`; `none` is `NaN`.  `stringToNumber` is the
StringToNumber of the runtime; an array is converted through the string it
joins to, and a plain object through `"[object Object]"`, which is not numeric. -/
def JsVal.toNumber (stringToNumber : String → Option Int) : JsVal → Option Int
  | .undefined => none
  | .null => some 0
  | .bool b => some (if b then 1 else 0)
  | .num n => some (toDouble n)
  | .str s => stringToNumber s
  | .arr items => stringToNumber (JsVal.arr items).toStr
  | .obj _ => none
  | .paramsRef => none

/-- A number inside a template literal. -/
def numStr : Option Int → String
  | none => "NaN"
  | some n => toString n

/-- The own property `o.k`, `undefined` when there is none. -/
def getProp (o : JsObject) (k : String) : JsVal :=
  match o with
  | [] => .undefined
  | (k1, v) :: rest => if k1 = k then v else getProp rest k

/-- The assignment `o.k = v`: an existing property keeps its place, a new one
is added last. -/
def setProp (o : JsObject) (k : String) (v : JsVal) : JsObject :=
  match o with
  | [] => [(k, v)]
  | (k1, v1) :: rest => if k1 = k then (k1, v) :: rest else (k1, v1) :: setProp rest k v

/-- The property `v.k` of a value, for a key that no prototype defines;
reading a property of `undefined` or `null` throws a TypeError, with the
message of V8. -/
def readProp (v : JsVal) (k : String) : Except JsError JsVal :=
  match v with
  | .undefined =>
    .error ⟨"Cannot read properties of undefined (reading \x27" ++ k ++ "\x27)", none⟩
  | .null => .error ⟨"Cannot read properties of null (reading \x27" ++ k ++ "\x27)", none⟩
  | .obj fields => .ok (getProp fields k)
  | _ => .ok .undefined

/-! ## The Google SDK -/

/-- An OAuth2 client: the arguments of `new google.auth.OAuth2(..)` and the
access token given to `setCredentials`. -/
structure AuthClient where
  clientId : JsVal
  clientSecret : JsVal
  redirectUri : JsVal
  access_token : JsVal

/-- The `range` of a `deleteDimension` request. -/
structure DimensionRange where
  sheetId : Int
  dimension : String
  startIndex : Int
  endIndex : Int
  deriving DecidableEq, Repr

/-- A request of a `batchUpdate`. -/
inductive SheetsRequest where
  | deleteDimension (range : DimensionRange)
  deriving DecidableEq, Repr

/-- A call to the googleapis SDK, with its arguments. -/
inductive SdkCall where
  | valuesAppend (spreadsheetId : JsVal) (range valueInputOption : String) (values : List JsVal)
  | valuesGet (spreadsheetId : JsVal) (range : String)
  | valuesUpdate (spreadsheetId : JsVal) (range valueInputOption : String) (values : List JsVal)
  | batchUpdate (spreadsheetId : JsVal) (requests : List SheetsRequest)
  | messagesList (userId : String) (q : JsVal) (maxResults : Nat)
  | messagesGet (userId id format : String) (metadataHeaders : List String)

/-- The `data` of a `messages.get` response: `payload.headers` and `snippet`. -/
structure MessageDetail where
  headers : Option (List (String × String))
  snippet : JsVal

/-- The world outside the process: what each SDK call resolves to or throws,
the builtin `JSON.parse` (`none` when it throws) and the builtin conversion of a
string to a number (`none` when it gives `NaN`). -/
structure World where
  messagesList : AuthClient → SdkCall → Except JsError (Option (List String))
  messagesGet : AuthClient → SdkCall → Except JsError MessageDetail
  valuesGet : AuthClient → SdkCall → Except JsError (Option (List (List String)))
  write : AuthClient → SdkCall → Except JsError Unit
  jsonParse : String → Option JsVal
  stringToNumber : String → Option Int

/-- The row filter `row && row.length > 0 && row[0].trim() !== ""`. -/
def keepRow (row : List String) : Bool :=
  match row with
  | [] => false
  | cell :: _ => jsTrim cell != ""

/-- The `fields` object built from the headers of a message: the From, Subject
and Date headers in the order they arrive, a repeated one overwriting. -/
def pickHeaders (fields : JsObject) : List (String × String) → JsObject
  | [] => fields
  | (name, value) :: rest =>
    if ["From", "Subject", "Date"].contains name then
      pickHeaders (setProp fields name (.str value)) rest
    else pickHeaders fields rest

/-- The first error among the outcomes of concurrent calls, else all results. -/
def allOk {α : Type} : List (Except JsError α) → Except JsError (List α)
  | [] => .ok []
  | .error e :: _ => .error e
  | .ok a :: rest =>
    match allOk rest with
    | .ok as => .ok (a :: as)
    | .error e => .error e

/-! ## Tokens (`backup.js`, `server.js`) -/

/-- TokenData: `{access_token, refresh_token, expires_at, token_type}`. -/
structure TokenData where
  access_token : Option String
  refresh_token : Option String
  expires_at : Option Int
  token_type : Option String
  deriving DecidableEq, Repr

/-- The `credentials` that `authClient.refreshAccessToken()` resolves to. -/
structure Credentials where
  access_token : Option String
  refresh_token : Option String
  expiry_date : Option Int
  token_type : Option String
  deriving DecidableEq, Repr

/-- The outcome of `authClient.refreshAccessToken()` for a given refresh token. -/
abbrev Upstream := Option String → Except JsError Credentials

/-- TokenData as a response body. -/
def TokenData.toJs (t : TokenData) : JsVal :=
  .obj [("access_token", ofStr t.access_token), ("refresh_token", ofStr t.refresh_token),
        ("expires_at", ofNum t.expires_at), ("token_type", ofStr t.token_type)]

namespace Server

/-- The function `isTokenExpired` of `server.js`. -/
def isTokenExpired (now : Int) (tokenData : TokenData) : Bool :=
  if !truthyNum tokenData.expires_at then false
  else
    let bufferTime : Int := 5 * 60 * 1000
    decide (now > tokenData.expires_at.getD 0 - bufferTime)

end Server

namespace Backup

/-- The function `isTokenExpired` of `backup.js`. -/
def isTokenExpired (now : Int) (tokenData : TokenData) : Bool :=
  if !truthyNum tokenData.expires_at then false
  else
    let bufferTime : Int := 5 * 60 * 1000
    decide (now > tokenData.expires_at.getD 0 - bufferTime)

/-- The `tokenStore` map: user id to TokenData, in insertion order. -/
abbrev TokenStore := List (String × TokenData)

/-- The call `tokenStore.get(userId)`. -/
def storeGet (store : TokenStore) (userId : String) : Option TokenData :=
  match store with
  | [] => none
  | (k, v) :: rest => if k = userId then some v else storeGet rest userId

/-- The call `tokenStore.set(userId, tokenData)`. -/
def storeSet (store : TokenStore) (userId : String) (tokenData : TokenData) : TokenStore :=
  match store with
  | [] => [(userId, tokenData)]
  | (k, v) :: rest =>
    if k = userId then (k, tokenData) :: rest else (k, v) :: storeSet rest userId tokenData

/-- The function `refreshAccessToken(refreshToken, userId)`: the TokenData it
resolves to (or the error it throws) and the token store afterwards. -/
def refreshAccessToken (upstream : Upstream) (now : Int) (store : TokenStore)
    (refreshToken : Option String) (userId : String) : Except JsError TokenData × TokenStore :=
  match upstream refreshToken with
  | .ok credentials =>
    let tokenData : TokenData :=
      { access_token := credentials.access_token
        refresh_token := orStr credentials.refresh_token refreshToken
        expires_at := orNum credentials.expiry_date (some (now + 3600 * 1000))
        token_type := orStr credentials.token_type (some "Bearer") }
    (.ok tokenData, storeSet store userId tokenData)
  | .error error =>
    (.error ⟨"Token refresh failed: " ++ error.message, none⟩, store)

/-- The headers the middleware reads. -/
structure Headers where
  authorization : Option String
  xRefreshToken : Option String

/-- The body fields the middleware and the direct endpoints read. -/
structure Body where
  access_token : Option String
  refresh_token : Option String
  expires_at : Option Int
  values : JsVal
  rowIndex : Option Int
  query : Option String

/-- A request to `backup.js`; `body` is `none` when `req.body` is undefined. -/
structure Request where
  headers : Headers
  body : Option Body

/-- What `validateAndRefreshToken` did. -/
structure MwResult where
  /-- The response sent by the middleware itself, if any. -/
  response : Option Response
  /-- Whether `next()` was called. -/
  nextCalled : Bool
  /-- The token store afterwards. -/
  store : TokenStore
  /-- The refresh tokens `refreshAccessToken` was called with, in order. -/
  refreshCalls : List (Option String)
  /-- The response headers set with `res.set`. -/
  resHeaders : List (String × String)
  /-- The value of `req.tokenData` afterwards. -/
  reqTokenData : Option TokenData
  /-- The value of `req.access_token` afterwards. -/
  reqAccessToken : Option String

/-- Step 1 of the middleware: the access token of the Authorization header. -/
def headerAccessToken (req : Request) : Option String :=
  match req.headers.authorization with
  | none => none
  | some authHeader =>
    if authHeader != "" && startsWith authHeader "Bearer " then (splitSpace authHeader)[1]?
    else none

/-- Steps 1 and 3: the `access_token` the middleware works with. -/
def accessTokenOf (req : Request) : Option String :=
  let access_token := headerAccessToken req
  match req.body with
  | some body => if truthyStr body.access_token && !truthyStr access_token then body.access_token
                 else access_token
  | none => access_token

/-- Steps 2 and 3: the `refresh_token` the middleware works with. -/
def refreshTokenOf (store : TokenStore) (req : Request) : Option String :=
  let refresh_token :=
    orStr req.headers.xRefreshToken ((storeGet store "default").bind (·.refresh_token))
  match req.body with
  | some body => if truthyStr body.refresh_token && !truthyStr refresh_token then body.refresh_token
                 else refresh_token
  | none => refresh_token

/-- Step 4: `req.body?.expires_at ?? tokenStore.get(userId)?.expires_at`. -/
def expiresAtOf (store : TokenStore) (req : Request) : Option Int :=
  nullish (req.body.bind (·.expires_at)) ((storeGet store "default").bind (·.expires_at))

/-- The `String(val)` that `res.set` applies to a header value. -/
def headerValue : Option String → String
  | none => "undefined"
  | some s => s

/-- The middleware `validateAndRefreshToken`; `now` is the clock at the expiry
check and `nowRefresh` the clock inside `refreshAccessToken`.  Setting a
response header with `res.set` is taken to succeed. -/
def validateAndRefreshToken (upstream : Upstream) (now nowRefresh : Int)
    (store : TokenStore) (req : Request) : MwResult :=
  let userId := "default"
  let access_token := accessTokenOf req
  let refresh_token := refreshTokenOf store req
  let expires_at := expiresAtOf store req
  if !truthyStr access_token then
    { response := some ⟨401, errorBody "Access token missing"⟩
      nextCalled := false, store := store, refreshCalls := [], resHeaders := []
      reqTokenData := none, reqAccessToken := none }
  else
    let tokenData : TokenData :=
      { access_token := access_token, refresh_token := refresh_token
        expires_at := expires_at, token_type := none }
    if truthyStr refresh_token && isTokenExpired now tokenData then
      match refreshAccessToken upstream nowRefresh store refresh_token userId with
      | (.ok tokenData, store1) =>
        { response := none, nextCalled := true, store := store1
          refreshCalls := [refresh_token]
          resHeaders := [("X-New-Access-Token", headerValue tokenData.access_token),
                         ("X-Token-Refreshed", "true")]
          reqTokenData := some tokenData, reqAccessToken := tokenData.access_token }
      | (.error _, store1) =>
        { response := some ⟨401, .obj [("error", .str "Token refresh failed"),
                                        ("requiresReauth", .bool true)]⟩
          nextCalled := false, store := store1, refreshCalls := [refresh_token]
          resHeaders := [], reqTokenData := none, reqAccessToken := none }
    else
      { response := none, nextCalled := true
        store := if truthyStr refresh_token then storeSet store userId tokenData else store
        refreshCalls := [], resHeaders := []
        reqTokenData := some tokenData, reqAccessToken := access_token }

/-- The environment constants `CLIENT_ID`, `CLIENT_SECRET`, `SPREADSHEET_ID`. -/
structure Config where
  CLIENT_ID : Option String
  CLIENT_SECRET : Option String
  SPREADSHEET_ID : Option String

/-- The helper `createAuthClient(redirectUri)`. -/
def createAuthClient (cfg : Config) (redirectUri : JsVal) : AuthClient :=
  { clientId := ofStr cfg.CLIENT_ID, clientSecret := ofStr cfg.CLIENT_SECRET
    redirectUri := redirectUri, access_token := .undefined }

/-- The client a direct endpoint works with: `createAuthClient()` followed by
`setCredentials` with the access token `req.access_token`. -/
def requestClient (cfg : Config) (access_token : Option String) : AuthClient :=
  { createAuthClient cfg .null with access_token := ofStr access_token }

/-- What a direct endpoint did: its response and the SDK calls it made. -/
structure HandlerResult where
  response : Response
  calls : List (AuthClient × SdkCall)

/-- The `catch` block of a direct endpoint, `msg` being its generic message. -/
def sdkErrorResponse (err : JsError) (msg : String) : Response :=
  if err.code = some 401 ∨ err.code = some 403 then
    ⟨401, .obj [("error", .str "Authentication failed"), ("requiresReauth", .bool true)]⟩
  else ⟨500, errorBody msg⟩

/-- The handler of `POST /oauth/refresh` in `backup.js`: its response and the
token store afterwards. -/
def oauthRefresh (upstream : Upstream) (now : Int) (store : TokenStore)
    (refresh_token : Option String) : Response × TokenStore :=
  if !truthyStr refresh_token then (⟨400, errorBody "Refresh token missing"⟩, store)
  else
    match refreshAccessToken upstream now store refresh_token "default" with
    | (.ok tokenData, store1) => (Response.ok tokenData.toJs, store1)
    | (.error _, store1) =>
      (⟨400, .obj [("error", .str "Token refresh failed"), ("requiresReauth", .bool true)]⟩,
       store1)

/-- The handler of `POST /add-entry`. -/
def addEntry (cfg : Config) (w : World) (access_token : Option String) (body : Body) :
    HandlerResult :=
  if !body.values.truthy then ⟨⟨400, errorBody "Missing values"⟩, []⟩
  else
    let authClient := requestClient cfg access_token
    let call := SdkCall.valuesAppend (ofStr cfg.SPREADSHEET_ID) "Sheet1!A1" "RAW" [body.values]
    match w.write authClient call with
    | .ok _ => ⟨Response.ok (.obj [("status", .str "success")]), [(authClient, call)]⟩
    | .error err => ⟨sdkErrorResponse err "Error adding entry", [(authClient, call)]⟩

/-- The record `{id: index, fields: {name: entry[0] || "", email: entry[1] || ""}}`. -/
def entryRecord (index : Nat) (entry : List String) : JsVal :=
  .obj [("id", .num index),
        ("fields", .obj [("name", ofStr (orStr entry[0]? (some ""))),
                         ("email", ofStr (orStr entry[1]? (some "")))])]

/-- The handler of `GET /get-entries`. -/
def getEntries (cfg : Config) (w : World) (access_token : Option String) : HandlerResult :=
  let authClient := requestClient cfg access_token
  let call := SdkCall.valuesGet (ofStr cfg.SPREADSHEET_ID) "Sheet1!A1:B1000"
  match w.valuesGet authClient call with
  | .ok values =>
    let rows := (values.getD []).filter keepRow
    let transformedRecords := rows.mapIdx (fun index entry => entryRecord index entry)
    ⟨Response.ok (.obj [("data", .arr transformedRecords)]), [(authClient, call)]⟩
  | .error err => ⟨sdkErrorResponse err "Failed to fetch entries", [(authClient, call)]⟩

/-- The handler of `PUT /update-entry`. -/
def updateEntry (cfg : Config) (w : World) (access_token : Option String) (body : Body) :
    HandlerResult :=
  match body.rowIndex with
  | none => ⟨⟨400, errorBody "Missing data"⟩, []⟩
  | some rowIndex =>
    if !body.values.truthy then ⟨⟨400, errorBody "Missing data"⟩, []⟩
    else
      let authClient := requestClient cfg access_token
      let call := SdkCall.valuesUpdate (ofStr cfg.SPREADSHEET_ID)
        ("Sheet1!A" ++ toString (jsAdd rowIndex 1)) "RAW" [body.values]
      match w.write authClient call with
      | .ok _ => ⟨Response.ok (.obj [("status", .str "updated")]), [(authClient, call)]⟩
      | .error err => ⟨sdkErrorResponse err "Error updating entry", [(authClient, call)]⟩

/-- The handler of `DELETE /delete-entry`. -/
def deleteEntry (cfg : Config) (w : World) (access_token : Option String) (body : Body) :
    HandlerResult :=
  match body.rowIndex with
  | none => ⟨⟨400, errorBody "Missing rowIndex"⟩, []⟩
  | some rowIndex =>
    let authClient := requestClient cfg access_token
    let sheetRowToDelete := jsAdd rowIndex 1
    let call := SdkCall.batchUpdate (ofStr cfg.SPREADSHEET_ID)
      [.deleteDimension { sheetId := 0, dimension := "ROWS"
                          startIndex := jsSub sheetRowToDelete 1
                          endIndex := sheetRowToDelete }]
    match w.write authClient call with
    | .ok _ => ⟨Response.ok (.obj [("status", .str "deleted")]), [(authClient, call)]⟩
    | .error err => ⟨sdkErrorResponse err "Error deleting entry", [(authClient, call)]⟩

/-- The handler of `POST /gmail/search`.  The `messages.get` calls are all
issued before any of them settles. -/
def gmailSearch (cfg : Config) (w : World) (access_token : Option String) (body : Body) :
    HandlerResult :=
  if !truthyStr body.query then ⟨⟨400, errorBody "Search query missing"⟩, []⟩
  else
    let authClient := requestClient cfg access_token
    let listCall := SdkCall.messagesList "me" (ofStr body.query) 10
    match w.messagesList authClient listCall with
    | .error err => ⟨sdkErrorResponse err "Error searching emails", [(authClient, listCall)]⟩
    | .ok found =>
      let messages := found.getD []
      let getCalls := messages.map
        (fun id => SdkCall.messagesGet "me" id "metadata" ["From", "Subject", "Date"])
      let calls := (authClient, listCall) :: getCalls.map (fun c => (authClient, c))
      match allOk (getCalls.map (fun c => w.messagesGet authClient c)) with
      | .error err => ⟨sdkErrorResponse err "Error searching emails", calls⟩
      | .ok details =>
        let detailedRecords := (messages.zip details).map (fun (id, messageDetail) =>
          JsVal.obj [("id", .str id),
                     ("fields", .obj (pickHeaders [("Snippet", messageDetail.snippet)]
                                        (messageDetail.headers.getD [])))])
        ⟨Response.ok (.obj [("records", .arr detailedRecords)]), calls⟩

end Backup

/-! ## The block table (`blockConfigs.js`) -/

namespace BlockConfigs

/-- What an `execute` function did: the value it resolves to (or the error
it throws) and the SDK calls it made. -/
structure ExecResult where
  result : Except JsError JsVal
  calls : List (AuthClient × SdkCall)

/-- The client every `execute` builds: `new google.auth.OAuth2(credentials.clientId,
credentials.secretId)` with `setCredentials({access_token: credentials.access_token})`. -/
def authClientOf (credentials : JsObject) : AuthClient :=
  { clientId := getProp credentials "clientId", clientSecret := getProp credentials "secretId"
    redirectUri := .undefined, access_token := getProp credentials "access_token" }

/-- The `execute` of `gmail_search_emails.fetch`. -/
def gmailFetch (w : World) (credentials inputs : JsObject) : ExecResult :=
  let authClient := authClientOf credentials
  let listCall := SdkCall.messagesList "me" (getProp inputs "query") 10
  match w.messagesList authClient listCall with
  | .error err => ⟨.error err, [(authClient, listCall)]⟩
  | .ok found =>
    let messages := found.getD []
    let getCalls := messages.map
      (fun id => SdkCall.messagesGet "me" id "metadata" ["From", "Subject", "Date"])
    let calls := (authClient, listCall) :: getCalls.map (fun c => (authClient, c))
    match allOk (getCalls.map (fun c => w.messagesGet authClient c)) with
    | .error err => ⟨.error err, calls⟩
    | .ok details =>
      let records := (messages.zip details).map (fun (id, messageDetail) =>
        JsVal.obj [("id", .str id),
                   ("fields", .obj (setProp (pickHeaders [] (messageDetail.headers.getD []))
                                      "Snippet" messageDetail.snippet))])
      ⟨.ok (.obj [("records", .arr records)]), calls⟩

/-- The loop `fieldKeys.forEach((key, i) => ..)` of `google-sheets-crud.fetch`:
the cell `row[i]` parsed as JSON when it is not empty, kept as text when the
parse throws. -/
def cellFields (w : World) (row : List String) (fields : JsObject) (i : Nat) :
    List JsVal → JsObject
  | [] => fields
  | key :: rest =>
    let cell := row[i]?
    let value :=
      if truthyStr cell then
        match w.jsonParse (cell.getD "") with
        | some v => v
        | none => ofStr (orStr cell (some ""))
      else .str ""
    cellFields w row (setProp fields key.toStr value) (i + 1) rest

/-- The `execute` of `google-sheets-crud.fetch`. -/
def sheetsFetch (w : World) (credentials inputs : JsObject) : ExecResult :=
  let authClient := authClientOf credentials
  let spreadsheetId := getProp credentials "spreadsheetId"
  let call := SdkCall.valuesGet spreadsheetId "Sheet1!A1:Z1000"
  match w.valuesGet authClient call with
  | .error err => ⟨.error err, [(authClient, call)]⟩
  | .ok values =>
    let rows := (values.getD []).filter keepRow
    let fieldKeys :=
      if (getProp inputs "fieldKeys").truthy then getProp inputs "fieldKeys" else .arr []
    match fieldKeys with
    | .arr keys =>
      let transformedRecords := rows.mapIdx (fun index row =>
        JsVal.obj [("id", .num index), ("fields", .obj (cellFields w row [] 0 keys))])
      ⟨.ok (.obj [("data", .arr transformedRecords)]), [(authClient, call)]⟩
    | _ =>
      if rows.isEmpty then ⟨.ok (.obj [("data", .arr [])]), [(authClient, call)]⟩
      else ⟨.error ⟨"fieldKeys.forEach is not a function", none⟩, [(authClient, call)]⟩

/-- The `execute` of `google-sheets-crud.create`. -/
def sheetsCreate (w : World) (credentials inputs : JsObject) : ExecResult :=
  let authClient := authClientOf credentials
  let spreadsheetId := getProp credentials "spreadsheetId"
  let call := SdkCall.valuesAppend spreadsheetId "Sheet1!A1" "RAW" [getProp inputs "valuesArray"]
  match w.write authClient call with
  | .error err => ⟨.error err, [(authClient, call)]⟩
  | .ok _ => ⟨.ok (.obj [("status", .str "success")]), [(authClient, call)]⟩

/-- The `execute` of `google-sheets-crud.update`. -/
def sheetsUpdate (w : World) (credentials inputs : JsObject) : ExecResult :=
  let authClient := authClientOf credentials
  let spreadsheetId := getProp credentials "spreadsheetId"
  let call := SdkCall.valuesUpdate spreadsheetId
    ("Sheet1!A" ++
      numStr (((getProp inputs "recordId").toNumber w.stringToNumber).map (jsAdd · 1))) "RAW"
    [getProp inputs "valuesArray"]
  match w.write authClient call with
  | .error err => ⟨.error err, [(authClient, call)]⟩
  | .ok _ => ⟨.ok (.obj [("status", .str "updated")]), [(authClient, call)]⟩

/-- The `execute` of `google-sheets-crud.delete`. -/
def sheetsDelete (w : World) (credentials inputs : JsObject) : ExecResult :=
  let authClient := authClientOf credentials
  let spreadsheetId := getProp credentials "spreadsheetId"
  match (getProp inputs "recordId").toNumber w.stringToNumber with
  | none => ⟨.error ⟨"Invalid or missing recordId", none⟩, []⟩
  | some rowIndex =>
    let call := SdkCall.batchUpdate spreadsheetId
      [.deleteDimension { sheetId := 0, dimension := "ROWS"
                          startIndex := rowIndex, endIndex := jsAdd rowIndex 1 }]
    match w.write authClient call with
    | .error err => ⟨.error err, [(authClient, call)]⟩
    | .ok _ => ⟨.ok (.obj [("status", .str "deleted")]), [(authClient, call)]⟩

/-- The object `{ ...v }`: the own enumerable properties of a value. -/
def spread : JsVal → JsObject
  | .obj fields => fields
  | .arr items => items.mapIdx (fun i v => (toString i, v))
  | .str s => s.data.mapIdx (fun i c => (toString i, JsVal.str (String.singleton c)))
  | _ => []

/-- A declarative operation: a REST call described by builder functions. -/
structure DeclarativeOp where
  service : String
  method : String
  /-- The builder `buildUrl({ inputs, config })`. -/
  buildUrl : JsObject → JsObject → String
  /-- The builder `buildHeaders({ credentials })`. -/
  buildHeaders : JsObject → JsObject
  /-- The builder `buildPayload({ inputs })`, when the operation has one. -/
  buildPayload : Option (JsObject → JsVal)
  requiredFields : Option (List String)
  responseField : Option String
  transform : Option (JsVal → JsVal)

/-- An imperative operation: an inline `execute({ credentials, inputs })`. -/
structure ImperativeOp where
  service : String
  method : String
  execute : World → JsObject → JsObject → ExecResult

/-- An entry of `operations`. -/
inductive OperationSpec where
  | declarative (op : DeclarativeOp)
  | imperative (op : ImperativeOp)

/-- A block: its operations and its `config`, if it has one. -/
structure Block where
  operations : List (String × OperationSpec)
  config : Option JsObject

/-- The URL of an Airtable table. -/
def tableUrl (inputs config : JsObject) : String :=
  (getProp config "baseurl").toStr ++ "/" ++ (getProp inputs "baseId").toStr ++ "/" ++
    (getProp inputs "tableName").toStr

/-- The URL of an Airtable record. -/
def recordUrl (inputs config : JsObject) : String :=
  tableUrl inputs config ++ "/" ++ (getProp inputs "recordId").toStr

/-- The header `Authorization: Bearer <apiKey>`. -/
def bearerHeader (credentials : JsObject) : String × JsVal :=
  ("Authorization", .str ("Bearer " ++ (getProp credentials "apiKey").toStr))

/-- The payload `{ fields: { ...inputs.dataFields } }`. -/
def fieldsPayload (inputs : JsObject) : JsVal :=
  .obj [("fields", .obj (spread (getProp inputs "dataFields")))]

/-- The block `airtable-crud`. -/
def airtableCrud : Block :=
  { operations :=
      [("fetch", .declarative
          { service := "airtable", method := "GET", buildUrl := tableUrl
            buildHeaders := fun credentials => [bearerHeader credentials]
            buildPayload := none
            requiredFields := some ["baseId", "tableName"]
            responseField := some "records", transform := none }),
       ("create", .declarative
          { service := "airtable", method := "POST", buildUrl := tableUrl
            buildHeaders := fun credentials =>
              [bearerHeader credentials, ("Content-Type", .str "application/json")]
            buildPayload := some fieldsPayload
            requiredFields := some ["baseId", "tableName"]
            responseField := none, transform := none }),
       ("update", .declarative
          { service := "airtable", method := "PATCH", buildUrl := recordUrl
            buildHeaders := fun credentials =>
              [bearerHeader credentials, ("Content-Type", .str "application/json")]
            buildPayload := some fieldsPayload
            requiredFields := some ["baseId", "tableName", "recordId"]
            responseField := none, transform := none }),
       ("delete", .declarative
          { service := "airtable", method := "DELETE", buildUrl := recordUrl
            buildHeaders := fun credentials => [bearerHeader credentials]
            buildPayload := none
            requiredFields := some ["baseId", "tableName", "recordId"]
            responseField := none, transform := none })]
    config := some [("baseurl", .str "https://api.airtable.com/v0")] }

/-- The block `gmail_search_emails`. -/
def gmailSearchEmails : Block :=
  { operations := [("fetch", .imperative ⟨"gmail", "POST", gmailFetch⟩)]
    config := none }

/-- The block `google-sheets-crud`. -/
def googleSheetsCrud : Block :=
  { operations :=
      [("fetch", .imperative ⟨"googlesheets", "GET", sheetsFetch⟩),
       ("create", .imperative ⟨"googlesheets", "POST", sheetsCreate⟩),
       ("update", .imperative ⟨"googlesheets", "PUT", sheetsUpdate⟩),
       ("delete", .imperative ⟨"googlesheets", "DELETE", sheetsDelete⟩)]
    config := none }

/-- The exported map, block id to block. -/
def blockConfigs : List (String × Block) :=
  [("airtable-crud", airtableCrud), ("gmail_search_emails", gmailSearchEmails),
   ("google-sheets-crud", googleSheetsCrud)]

end BlockConfigs

/-! ## The dispatcher and the OAuth endpoints (`server.js`) -/

namespace Server

open BlockConfigs

/-- The characters the regular expression of `stripZeroWidth` matches: U+200B to
U+200D and U+FEFF. -/
def isZeroWidth (c : Char) : Bool :=
  let n := c.toNat
  (0x200B ≤ n && n ≤ 0x200D) || n == 0xFEFF

/-- The function `stripZeroWidth`. -/
def stripZeroWidth (s : String) : String :=
  jsTrim (String.mk (s.data.filter (fun c => !isZeroWidth c)))

/-- The body of an OAuth request: each field is the value the client sent,
`undefined` when it sent none. -/
structure OAuthBody where
  code : JsVal
  redirect_uri : JsVal
  refresh_token : JsVal
  client_id : JsVal
  client_secret : JsVal

/-- The expression `typeof v === "string" ? stripZeroWidth(v) : null`; `none`
is `null`. -/
def strippedString : JsVal → Option String
  | .str s => some (stripZeroWidth s)
  | _ => none

/-- The outcome of `authClient.getToken(code)` for a client built from
`(clientId, clientSecret, redirect_uri)`. -/
abbrev TokenExchange := String → String → JsVal → JsVal → Except JsError Credentials

/-- The outcome of `authClient.refreshAccessToken()` for a client built from
`(clientId, clientSecret)` and holding the given refresh token. -/
abbrev TokenRefresh := String → String → JsVal → Except JsError Credentials

/-- The handler of `POST /oauth/callback`. -/
def oauthCallback (exchange : TokenExchange) (now : Int) (body : OAuthBody) : Response :=
  if !body.code.truthy || !body.redirect_uri.truthy then
    ⟨400, errorBody "Missing authorization code or redirect_uri"⟩
  else
    let clientId := strippedString body.client_id
    let clientSecret := strippedString body.client_secret
    if !truthyStr clientId || !truthyStr clientSecret then
      ⟨400, errorBody "Missing client_id or client_secret in request body"⟩
    else
      match exchange (clientId.getD "") (clientSecret.getD "") body.redirect_uri body.code with
      | .ok tokens =>
        Response.ok (TokenData.toJs
          { access_token := tokens.access_token
            refresh_token := tokens.refresh_token
            expires_at := orNum tokens.expiry_date (some (now + 3600 * 1000))
            token_type := orStr tokens.token_type (some "Bearer") })
      | .error err =>
        ⟨400, .obj [("error", .str "OAuth exchange failed"), ("details", .str err.message)]⟩

/-- The handler of `POST /oauth/refresh`. -/
def oauthRefresh (refresh : TokenRefresh) (now : Int) (body : OAuthBody) : Response :=
  if !body.refresh_token.truthy then ⟨400, errorBody "Missing refresh_token"⟩
  else
    let clientId := strippedString body.client_id
    let clientSecret := strippedString body.client_secret
    if !truthyStr clientId || !truthyStr clientSecret then
      ⟨400, errorBody "Missing client_id or client_secret in request body"⟩
    else
      match refresh (clientId.getD "") (clientSecret.getD "") body.refresh_token with
      | .ok credentials =>
        Response.ok (.obj
          [("access_token", ofStr credentials.access_token),
           ("refresh_token",
              if truthyStr credentials.refresh_token then ofStr credentials.refresh_token
              else body.refresh_token),
           ("expires_at", ofNum (orNum credentials.expiry_date (some (now + 3600 * 1000)))),
           ("token_type", ofStr (orStr credentials.token_type (some "Bearer")))])
      | .error err =>
        ⟨400, .obj [("error", .str "Token refresh failed"), ("details", .str err.message),
                    ("requiresReauth", .bool true)]⟩

/-- The configuration object handed to `axios`; `data` is `none` once the
property has been deleted. -/
structure AxiosConfig where
  url : String
  method : String
  headers : JsObject
  data : Option JsVal

/-- The outcome of `axios(config)`: `response.data`, or the error thrown. -/
abbrev Axios := AxiosConfig → Except JsError JsVal

/-- A call the dispatcher makes out of its own body. -/
inductive Effect where
  /-- The call `op.execute({ credentials, inputs })`. -/
  | execute (blockId operation : String) (credentials inputs : JsObject)
  /-- An SDK call made by an executor. -/
  | sdk (auth : AuthClient) (call : SdkCall)
  /-- The call `op.buildUrl({ inputs, config })`. -/
  | buildUrl (inputs config : JsObject)
  /-- The call `op.buildHeaders({ credentials })`. -/
  | buildHeaders (credentials : JsObject)
  /-- The call `op.buildPayload({ inputs })`. -/
  | buildPayload (inputs : JsObject)
  /-- The call `axios(axiosConfig)`. -/
  | axios (config : AxiosConfig)

/-- What `POST /block/execute` did: its response and the calls it made, in
order. -/
structure ExecuteResult where
  response : Response
  effects : List Effect

/-- The body of `POST /block/execute`.  `blockId` and `operation` are only
used as property keys and are given as the key they convert to (a missing one
is the key `"undefined"`); `params` and `credentials` are objects when present. -/
structure ExecuteBody where
  blockId : String
  operation : String
  params : Option JsObject
  credentials : Option JsObject

/-- The property names every object literal inherits from `Object.prototype`. -/
def objectPrototypeKeys : List String :=
  ["constructor", "__defineGetter__", "__defineSetter__", "hasOwnProperty",
   "__lookupGetter__", "__lookupSetter__", "isPrototypeOf", "propertyIsEnumerable",
   "toString", "valueOf", "__proto__", "toLocaleString"]

/-- The result of the property read `table[key]` on an object literal. -/
inductive Lookup (α : Type) where
  /-- An own property of the literal. -/
  | own (a : α)
  /-- A member of `Object.prototype`: a function, or for `__proto__` the
  prototype object; truthy, and with none of the properties the dispatcher reads. -/
  | inherited
  /-- No such property: `undefined`. -/
  | absent

/-- The own property `table[key]` of an object literal, if there is one. -/
def lookupOwn {α : Type} (table : List (String × α)) (key : String) : Option α :=
  match table with
  | [] => none
  | (k, v) :: rest => if k = key then some v else lookupOwn rest key

/-- The property read `table[key]` on an object literal. -/
def lookupKey {α : Type} (table : List (String × α)) (key : String) : Lookup α :=
  match lookupOwn table key with
  | some a => .own a
  | none => if objectPrototypeKeys.contains key then .inherited else .absent

/-- The outer `catch` of the dispatcher. -/
def executionError (err : JsError) : Response :=
  ⟨500, errorBody (if err.message != "" then err.message else "Block execution failed")⟩

/-- The function `Object.values` on a property of `params`, itself given as
`params`: the values in property order. -/
def objectValues (params : JsObject) : JsVal → List JsVal
  | .obj fields => fields.map (·.2)
  | .arr items => items
  | .str s => s.data.map (fun c => JsVal.str (String.singleton c))
  | .paramsRef => params.map (·.2)
  | _ => []

/-- The credential fix-up of the imperative branch. -/
def normalizeCredentials (credentials : JsObject) : JsObject :=
  let c1 :=
    if !(getProp credentials "clientId").truthy && (getProp credentials "client_id").truthy then
      setProp credentials "clientId" (getProp credentials "client_id")
    else credentials
  let c2 :=
    if !(getProp c1 "secretId").truthy && (getProp c1 "client_secret").truthy then
      setProp c1 "secretId" (getProp c1 "client_secret")
    else c1
  if !(getProp c2 "access_token").truthy then
    setProp c2 "access_token" (getProp c2 "accessToken")
  else c2

/-- The fix-up of `params` in the imperative branch: `spreadsheetId` from the
credentials, then `dataFields`, then `valuesArray`. -/
def normalizeParams (credentials params : JsObject) : JsObject :=
  let p1 :=
    if !(getProp params "spreadsheetId").truthy && (getProp credentials "spreadsheetId").truthy then
      setProp params "spreadsheetId" (getProp credentials "spreadsheetId")
    else params
  let dataFields :=
    if (getProp p1 "dataFields").truthy then getProp p1 "dataFields"
    else if (getProp p1 "fields").truthy then getProp p1 "fields"
    else .paramsRef
  let p2 := setProp p1 "dataFields" dataFields
  let valuesArray :=
    if (getProp p2 "valuesArray").truthy then getProp p2 "valuesArray"
    else
      .arr (objectValues p2
        (if (getProp p2 "dataFields").truthy then getProp p2 "dataFields" else .paramsRef))
  setProp p2 "valuesArray" valuesArray

/-- The declarative branch of the dispatcher, from the required-fields check on. -/
def executeRest (axios : Axios) (block : Block) (op : DeclarativeOp)
    (params credentials : JsObject) : ExecuteResult :=
  let missing :=
    match op.requiredFields with
    | some fields => fields.any (fun f => !(getProp params f).truthy)
    | none => false
  if missing then ⟨⟨400, errorBody "Missing required fields"⟩, []⟩
  else
    let config := block.config.getD []
    let url := op.buildUrl params config
    let headers := op.buildHeaders credentials
    let payload :=
      match op.buildPayload with
      | some build => build params
      | none => .undefined
    let built :=
      [Effect.buildUrl params config, Effect.buildHeaders credentials] ++
        (if op.buildPayload.isSome then [Effect.buildPayload params] else [])
    let method := String.mk (op.method.data.map Char.toLower)
    let axiosConfig : AxiosConfig :=
      { url := url, method := method, headers := headers
        data := if !payload.truthy && (method = "get" || method = "delete") then none
                else some payload }
    let effects := built ++ [Effect.axios axiosConfig]
    match axios axiosConfig with
    | .error err => ⟨executionError err, effects⟩
    | .ok data =>
      let picked :=
        match op.responseField with
        | some field => readProp data field
        | none => .ok data
      match picked with
      | .error err => ⟨executionError err, effects⟩
      | .ok out =>
        match op.transform with
        | some transform => ⟨Response.ok (transform out), effects⟩
        | none => ⟨Response.ok out, effects⟩

/-- The handler of `POST /block/execute`. -/
def blockExecute (w : World) (axios : Axios) (body : ExecuteBody) : ExecuteResult :=
  let params := body.params.getD []
  let credentials := body.credentials.getD []
  match lookupKey blockConfigs body.blockId with
  | .absent => ⟨⟨400, errorBody "Block not found"⟩, []⟩
  | .inherited =>
    ⟨executionError
      ⟨"Cannot read properties of undefined (reading \x27" ++ body.operation ++ "\x27)",
        none⟩, []⟩
  | .own block =>
    match lookupKey block.operations body.operation with
    | .absent => ⟨⟨400, errorBody "Operation not found"⟩, []⟩
    | .inherited => ⟨executionError ⟨"op.buildUrl is not a function", none⟩, []⟩
    | .own (.imperative op) =>
      let credentials := normalizeCredentials credentials
      let params := normalizeParams credentials params
      let done := op.execute w credentials params
      let effects :=
        Effect.execute body.blockId body.operation credentials params ::
          done.calls.map (fun c => Effect.sdk c.1 c.2)
      match done.result with
      | .ok result => ⟨Response.ok result, effects⟩
      | .error err => ⟨executionError err, effects⟩
    | .own (.declarative op) => executeRest axios block op params credentials

/-- The `requiredFields` of a declarative operation of the table; empty for
any other pair. -/
def requiredFieldsOf (blockId operation : String) : List String :=
  match lookupOwn blockConfigs blockId with
  | none => []
  | some block =>
    match lookupOwn block.operations operation with
    | some (.declarative op) => op.requiredFields.getD []
    | _ => []

/-- The credentials handed to the executor, when one was called. -/
def executorCredentials (res : ExecuteResult) : Option JsObject :=
  match res.effects with
  | .execute _ _ credentials _ :: _ => some credentials
  | _ => none

/-- The inputs handed to the executor, when one was called. -/
def executorInputs (res : ExecuteResult) : Option JsObject :=
  match res.effects with
  | .execute _ _ _ inputs :: _ => some inputs
  | _ => none

end Server

/-- The property `k` of a response body. -/
def Response.field (res : Response) (k : String) : JsVal :=
  match res.body with
  | .obj fields => getProp fields k
  | _ => .undefined

/-! ## Examples used by the closed statements -/

/-- A token whose `expires_at` is the number 0. -/
def tokenExpiringAtZero : TokenData :=
  { access_token := some "a", refresh_token := some "r", expires_at := some 0, token_type := none }

/-- An upstream that refuses every refresh. -/
def refusingUpstream : Upstream := fun _ => .error ⟨"invalid_grant", none⟩

/-- A request with a Bearer access token and an `x-refresh-token` header, and
no `expires_at` in its body. -/
def requestWithoutExpiry : Backup.Request :=
  { headers := { authorization := some "Bearer abc", xRefreshToken := some "r1" }
    body := some { access_token := none, refresh_token := none, expires_at := none
                   values := .undefined, rowIndex := none, query := none } }

/-- A token that expires at time 2000. -/
def tokenExpiringSoon : TokenData :=
  { access_token := some "a", refresh_token := some "r", expires_at := some 2000
    token_type := none }

/-- A request with no access token and a refresh token in a header and in the
body. -/
def requestWithoutAccessToken : Backup.Request :=
  { headers := { authorization := some "Basic xyz", xRefreshToken := some "r1" }
    body := some { access_token := none, refresh_token := some "r2", expires_at := some 5
                   values := .undefined, rowIndex := none, query := none } }

/-- Upstream credentials with a new access token and no refresh token. -/
def freshCredentials : Credentials :=
  { access_token := some "a1", refresh_token := none, expiry_date := some 5000
    token_type := none }

/-- A body for `POST /oauth/refresh` of `server.js`. -/
def refreshBody : Server.OAuthBody :=
  { code := .undefined, redirect_uri := .undefined, refresh_token := .str "r0"
    client_id := .str "id", client_secret := .str "secret" }

/-- A world whose sheet holds the rows `[["Alice","a@x.com"],["",""]]` and
where every other call fails. -/
def aliceWorld : World :=
  { messagesList := fun _ _ => .error ⟨"unavailable", none⟩
    messagesGet := fun _ _ => .error ⟨"unavailable", none⟩
    valuesGet := fun _ _ => .ok (some [["Alice", "a@x.com"], ["", ""]])
    write := fun _ _ => .error ⟨"unavailable", none⟩
    jsonParse := fun _ => none
    stringToNumber := fun _ => none }

/-- A body for `DELETE /delete-entry` with `rowIndex: 9007199254740992`, that
is 2^53. -/
def deleteRowHugeBody : Backup.Body :=
  { access_token := none, refresh_token := none, expires_at := none
    values := .undefined, rowIndex := some 9007199254740992, query := none }

/-- A body for `DELETE /delete-entry` with `rowIndex: 2`. -/
def deleteRowTwoBody : Backup.Body :=
  { access_token := none, refresh_token := none, expires_at := none
    values := .undefined, rowIndex := some 2, query := none }

/-- Credentials under the camelCase keys `clientId`, `clientSecret`,
`accessToken`. -/
def camelCaseCredentials : JsObject :=
  [("clientId", .str "id"), ("clientSecret", .str "sec"), ("accessToken", .str "tok")]

/-- Credentials under the snake_case keys `client_id`, `client_secret`,
`access_token`. -/
def snakeCaseCredentials : JsObject :=
  [("client_id", .str "id"), ("client_secret", .str "sec"), ("access_token", .str "tok")]

/-- A world in which every SDK call is refused with code 403. -/
def forbiddenWorld : World :=
  { messagesList := fun _ _ => .error ⟨"forbidden", some 403⟩
    messagesGet := fun _ _ => .error ⟨"forbidden", some 403⟩
    valuesGet := fun _ _ => .error ⟨"forbidden", some 403⟩
    write := fun _ _ => .error ⟨"forbidden", some 403⟩
    jsonParse := fun _ => none
    stringToNumber := fun _ => none }

/-- An upstream that grants every refresh with `freshCredentials`. -/
def grantingUpstream : Upstream := fun _ => .ok freshCredentials

/-- Flat params for `google-sheets-crud.create`: no `dataFields`, no `fields`,
no `valuesArray`. -/
def flatParams : JsObject := [("name", .str "Alice"), ("email", .str "a@x.com")]

/-- A string made of U+200B, a space and U+FEFF. -/
def invisibleId : String := String.mk [Char.ofNat 0x200B, ' ', Char.ofNat 0xFEFF]

/-- A body for `POST /oauth/refresh` of `server.js` whose `client_id` is
`invisibleId`. -/
def invisibleIdBody : Server.OAuthBody :=
  { code := .undefined, redirect_uri := .undefined, refresh_token := .str "r0"
    client_id := .str invisibleId, client_secret := .str "secret" }

/-! ## The error mapping of the direct endpoints as the specification words it -/

/-- The response `res` maps the SDK error `err` as specified: code 401 or 403
gives 401 `{error: "Authentication failed", requiresReauth: true}`, every other
error gives 500 with the generic body `{error: msg}`, which has no
`requiresReauth`. -/
def mapsSdkError (err : JsError) (msg : String) (res : Response) : Prop :=
  ((err.code = some 401 ∨ err.code = some 403) →
    res.status = 401 ∧
    res.body = .obj [("error", .str "Authentication failed"), ("requiresReauth", .bool true)]) ∧
  (¬ (err.code = some 401 ∨ err.code = some 403) →
    res.status = 500 ∧ res.body = .obj [("error", .str msg)] ∧
    res.field "requiresReauth" = .undefined)

/-! ## The records of `GET /get-entries` as the specification words them -/

/-- A blank row: an empty row, or one whose first cell is empty once trimmed. -/
def isBlankRow (row : List String) : Bool :=
  match row with
  | [] => true
  | cell :: _ => jsTrim cell == ""

/-- The records for a list of rows, numbering from `k`: a blank row gives
nothing, and the next kept row gives `{id, fields: {name, email}}` with a
missing cell rendered as `""`. -/
def expectedRecords (k : Nat) : List (List String) → List JsVal
  | [] => []
  | row :: rest =>
    if isBlankRow row then expectedRecords k rest
    else
      .obj [("id", .num k),
            ("fields", .obj [("name", .str (row.headD "")), ("email", .str (row.getD 1 ""))])]
        :: expectedRecords (k + 1) rest

/-! ## Lemmas on the helpers -/

theorem getProp_setProp_ne (o : JsObject) (k k1 : String) (v : JsVal) (h : k1 ≠ k) :
    getProp (setProp o k1 v) k = getProp o k := by
  induction o with
  | nil => simp [setProp, getProp, h]
  | cons p rest ih =>
    obtain ⟨k2, v2⟩ := p
    by_cases h2 : k2 = k1
    · subst h2
      simp [setProp, getProp, h]
    · by_cases h3 : k2 = k
      · subst h3
        simp [setProp, getProp, h2]
      · simp [setProp, getProp, h2, h3, ih]

theorem getProp_setProp_same (o : JsObject) (k : String) (v : JsVal) :
    getProp (setProp o k v) k = v := by
  induction o with
  | nil => simp [setProp, getProp]
  | cons p rest ih =>
    obtain ⟨k2, v2⟩ := p
    by_cases h2 : k2 = k
    · simp [setProp, getProp, h2]
    · simp [setProp, getProp, h2, ih]

theorem normalizeCredentials_fields (credentials : JsObject) :
    (((getProp credentials "clientId").truthy = true ∨
        (getProp credentials "client_id").truthy = true) →
      getProp (Server.normalizeCredentials credentials) "clientId" =
        (if (getProp credentials "clientId").truthy then getProp credentials "clientId"
         else getProp credentials "client_id")) ∧
    (((getProp credentials "secretId").truthy = true ∨
        (getProp credentials "client_secret").truthy = true) →
      getProp (Server.normalizeCredentials credentials) "secretId" =
        (if (getProp credentials "secretId").truthy then getProp credentials "secretId"
         else getProp credentials "client_secret")) ∧
    getProp (Server.normalizeCredentials credentials) "access_token" =
      (if (getProp credentials "access_token").truthy then getProp credentials "access_token"
       else getProp credentials "accessToken") := by
  have e1 : ("clientId" : String) ≠ "secretId" := by decide
  have e2 : ("clientId" : String) ≠ "client_secret" := by decide
  have e3 : ("clientId" : String) ≠ "access_token" := by decide
  have e4 : ("clientId" : String) ≠ "accessToken" := by decide
  have e5 : ("secretId" : String) ≠ "access_token" := by decide
  have e6 : ("secretId" : String) ≠ "accessToken" := by decide
  have e7 : ("secretId" : String) ≠ "clientId" := by decide
  have e8 : ("access_token" : String) ≠ "clientId" := by decide
  have e9 : ("access_token" : String) ≠ "secretId" := by decide
  unfold Server.normalizeCredentials
  by_cases h1 : (getProp credentials "clientId").truthy = true <;>
  by_cases h2 : (getProp credentials "client_id").truthy = true <;>
  by_cases h3 : (getProp credentials "secretId").truthy = true <;>
  by_cases h4 : (getProp credentials "client_secret").truthy = true <;>
  by_cases h5 : (getProp credentials "access_token").truthy = true <;>
  simp [h1, h2, h3, h4, h5, getProp_setProp_same, getProp_setProp_ne, e1, e2, e3, e4, e5, e6,
    e7, e8, e9]

theorem isTokenExpired_true_iff (now : Int) (tokenData : TokenData) :
    Backup.isTokenExpired now tokenData = true ↔
      ∃ e, tokenData.expires_at = some e ∧ e ≠ 0 ∧ now > e - 300000 := by
  obtain ⟨a, r, e, tt⟩ := tokenData
  cases e with
  | none => simp [Backup.isTokenExpired, truthyNum]
  | some e =>
    by_cases h0 : e = 0
    · subst h0
      simp [Backup.isTokenExpired, truthyNum]
    · simp [Backup.isTokenExpired, truthyNum, h0]

theorem getProp_normalizeParams (credentials params : JsObject) (k : String)
    (h1 : "spreadsheetId" ≠ k) (h2 : "dataFields" ≠ k) (h3 : "valuesArray" ≠ k) :
    getProp (Server.normalizeParams credentials params) k = getProp params k := by
  unfold Server.normalizeParams
  simp only []
  rw [getProp_setProp_ne _ _ _ _ h3, getProp_setProp_ne _ _ _ _ h2]
  split
  · rw [getProp_setProp_ne _ _ _ _ h1]
  · rfl

theorem keepRow_eq_not_blank (row : List String) : keepRow row = !isBlankRow row := by
  cases row with
  | nil => rfl
  | cons cell rest => simp [keepRow, isBlankRow, bne]

theorem entryRecord_of_keep (k : Nat) (row : List String) (h : keepRow row = true) :
    Backup.entryRecord k row =
      .obj [("id", .num k),
            ("fields", .obj [("name", .str (row.headD "")), ("email", .str (row.getD 1 ""))])] := by
  cases row with
  | nil => simp [keepRow] at h
  | cons cell rest =>
    have hc : cell ≠ "" := by
      intro hc
      subst hc
      have ht : jsTrim "" = "" := by decide
      simp [keepRow, ht] at h
    cases rest with
    | nil => simp [Backup.entryRecord, orStr, truthyStr, hc, ofStr]
    | cons c2 rest2 =>
      by_cases h2 : c2 = ""
      · simp [Backup.entryRecord, orStr, truthyStr, hc, ofStr, h2]
      · simp [Backup.entryRecord, orStr, truthyStr, hc, ofStr, h2]

theorem mapIdx_entryRecord (rows : List (List String)) (k : Nat) :
    (rows.filter keepRow).mapIdx (fun index entry => Backup.entryRecord (index + k) entry) =
      expectedRecords k rows := by
  induction rows generalizing k with
  | nil => simp [expectedRecords]
  | cons row rest ih =>
    by_cases h : keepRow row = true
    · have hb : isBlankRow row = false := by
        have := keepRow_eq_not_blank row
        rw [h] at this
        simpa using this.symm
      have hrec := ih (k + 1)
      simp only [List.filter_cons, h, if_true, List.mapIdx_cons, expectedRecords, hb,
        Bool.false_eq_true, if_false, Nat.zero_add]
      rw [entryRecord_of_keep k row h, ← hrec]
      congr 1
      apply congrArg (fun f => List.mapIdx f (List.filter keepRow rest))
      funext index entry
      rw [Nat.add_assoc, Nat.add_comm 1 k]
    · have hk : keepRow row = false := by simpa using h
      have hb : isBlankRow row = true := by
        have := keepRow_eq_not_blank row
        rw [hk] at this
        simpa using this.symm
      simp only [List.filter_cons, hk, Bool.false_eq_true, if_false, expectedRecords, hb, if_true]
      exact ih k

theorem expectedRecords_spec (rows : List (List String)) (k : Nat) :
    (expectedRecords k rows).length = (rows.filter (fun row => !isBlankRow row)).length ∧
    ∀ (i : Nat) (row : List String),
      (rows.filter (fun row => !isBlankRow row))[i]? = some row →
      (expectedRecords k rows)[i]? =
        some (JsVal.obj [("id", .num ((i + k : Nat) : Int)),
                    ("fields", .obj [("name", .str (row.headD "")),
                                     ("email", .str (row.getD 1 ""))])]) := by
  induction rows generalizing k with
  | nil => simp [expectedRecords]
  | cons r rest ih =>
    by_cases hb : isBlankRow r = true
    · simp only [expectedRecords, hb, if_true, List.filter_cons, Bool.not_true,
        Bool.false_eq_true, if_false]
      exact ih k
    · have hb1 : isBlankRow r = false := by simpa using hb
      simp only [expectedRecords, hb1, Bool.false_eq_true, if_false, List.filter_cons,
        Bool.not_false, if_true, List.length_cons]
      refine ⟨by rw [(ih (k + 1)).1], ?_⟩
      intro i row hi
      cases i with
      | zero =>
        simp only [List.getElem?_cons_zero, Option.some.injEq] at hi
        subst hi
        simp
      | succ j =>
        simp only [List.getElem?_cons_succ] at hi
        have := (ih (k + 1)).2 j row hi
        simp only [List.getElem?_cons_succ]
        rw [this]
        have harith : j + (k + 1) = j + 1 + k := by omega
        rw [harith]

theorem splitChars_no_sep (sep : Char) (l : List Char) (h : sep ∉ l) :
    splitChars sep l = [l] := by
  induction l with
  | nil => rfl
  | cons c cs ih =>
    have hc : c ≠ sep := fun hc => h (by simp [hc])
    have hcs : sep ∉ cs := fun hcs => h (by simp [hcs])
    simp [splitChars, hc, ih hcs]

theorem bearer_token_split (t : String) (h : ' ' ∉ t.data) :
    (splitSpace ("Bearer " ++ t))[1]? = some t := by
  have hd : ("Bearer " ++ t).data = 'B' :: 'e' :: 'a' :: 'r' :: 'e' :: 'r' :: ' ' :: t.data := by
    rw [String.data_append]
    rfl
  simp [splitSpace, hd, splitChars, splitChars_no_sep ' ' t.data h]

theorem startsWith_iff (s p : String) : startsWith s p = true ↔ ∃ t, s = p ++ t := by
  unfold startsWith
  rw [List.isPrefixOf_iff_prefix]
  constructor
  · rintro ⟨t, ht⟩
    exact ⟨String.mk t, String.ext (by simp [String.data_append, ht])⟩
  · rintro ⟨t, rfl⟩
    exact ⟨t.data, by simp [String.data_append]⟩

theorem headerAccessToken_falsy (req : Backup.Request)
    (hheader : ∀ h t, req.headers.authorization = some h → h = "Bearer " ++ t → t = "") :
    truthyStr (Backup.headerAccessToken req) = false := by
  unfold Backup.headerAccessToken
  cases ha : req.headers.authorization with
  | none => rfl
  | some h =>
    by_cases hs : startsWith h "Bearer " = true
    · obtain ⟨t, ht⟩ := (startsWith_iff h "Bearer ").mp hs
      have ht0 := hheader h t ha ht
      subst ht0
      subst ht
      decide
    · simp [hs, truthyStr]

theorem storeGet_storeSet (store : Backup.TokenStore) (userId : String) (t : TokenData) :
    Backup.storeGet (Backup.storeSet store userId t) userId = some t := by
  induction store with
  | nil => simp [Backup.storeSet, Backup.storeGet]
  | cons p rest ih =>
    obtain ⟨k, v⟩ := p
    by_cases h : k = userId
    · simp [Backup.storeSet, Backup.storeGet, h]
    · simp [Backup.storeSet, Backup.storeGet, h, ih]

theorem truthyStr_some (s : String) : truthyStr (some s) = true ↔ s ≠ "" := by
  simp [truthyStr]

theorem orStr_of_truthy (a b : Option String) (h : truthyStr a = true) : orStr a b = a := by
  simp [orStr, h]

theorem orStr_of_falsy (a b : Option String) (h : truthyStr a = false) : orStr a b = b := by
  simp [orStr, h]

/-! ## Token expiry -/

/-- C3 (counterexample): the rule "true exactly when `expires_at` is present and
`now > expires_at - 300000`" fails for a token whose `expires_at` is 0. -/
theorem isTokenExpired_present_rule_fails :
    ¬ (∀ (now : Int) (tokenData : TokenData),
        Backup.isTokenExpired now tokenData = true ↔
          ∃ e, tokenData.expires_at = some e ∧ now > e - 300000) := by
  intro h
  have h1 := (h 1 tokenExpiringAtZero).mpr ⟨0, rfl, by decide⟩
  revert h1
  decide

/-- C3 (amended): `isTokenExpired` is false when `expires_at` is more than five
minutes after `now`; it is true exactly when `expires_at` is present, is not 0
and `now > expires_at - 300000`, so a token with exactly five minutes left is not
expired; it is false when `expires_at` is missing; and the copies of `server.js`
and `backup.js` agree on every input. -/
theorem isTokenExpired_rule (now : Int) (tokenData : TokenData) :
    (∀ e, tokenData.expires_at = some e → e > now + 300000 →
        Backup.isTokenExpired now tokenData = false) ∧
    (Backup.isTokenExpired now tokenData = true ↔
        ∃ e, tokenData.expires_at = some e ∧ e ≠ 0 ∧ now > e - 300000) ∧
    (tokenData.expires_at = some (now + 300000) →
        Backup.isTokenExpired now tokenData = false) ∧
    (tokenData.expires_at = none → Backup.isTokenExpired now tokenData = false) ∧
    Server.isTokenExpired now tokenData = Backup.isTokenExpired now tokenData := by
  obtain ⟨a, r, e, tt⟩ := tokenData
  cases e with
  | none => simp [Backup.isTokenExpired, Server.isTokenExpired, truthyNum]
  | some e =>
    by_cases h0 : e = 0
    · subst h0
      simp [Backup.isTokenExpired, Server.isTokenExpired, truthyNum]
    · simp only [Backup.isTokenExpired, Server.isTokenExpired, truthyNum]
      simp [h0]
      refine ⟨?_, ?_⟩
      · intro h; omega
      · omega

/-! ## The token middleware -/

/-- C4 (counterexample): a request with an access token, a refresh token and
no expiry at all, on an empty store, triggers no refresh attempt. -/
theorem no_refresh_without_expiry :
    truthyStr (Backup.accessTokenOf requestWithoutExpiry) = true ∧
    Backup.refreshTokenOf [] requestWithoutExpiry = some "r1" ∧
    Backup.expiresAtOf [] requestWithoutExpiry = none ∧
    (Backup.validateAndRefreshToken refusingUpstream 1000 1000 []
      requestWithoutExpiry).refreshCalls = [] := by
  decide

/-- C4 (amended): for a request that carries an access token, the middleware
attempts a refresh exactly when a refresh token is present and the token has an
`expires_at` that is not 0 with `now > expires_at - 300000`; the attempt is a
single call of `refreshAccessToken` with that refresh token; with no expiry
there is no attempt. -/
theorem refresh_attempted_iff (upstream : Upstream) (now nowRefresh : Int)
    (store : Backup.TokenStore) (req : Backup.Request)
    (hacc : truthyStr (Backup.accessTokenOf req) = true) :
    ((Backup.validateAndRefreshToken upstream now nowRefresh store req).refreshCalls ≠ [] ↔
      truthyStr (Backup.refreshTokenOf store req) = true ∧
        ∃ e, Backup.expiresAtOf store req = some e ∧ e ≠ 0 ∧ now > e - 300000) ∧
    ((Backup.validateAndRefreshToken upstream now nowRefresh store req).refreshCalls = [] ∨
      (Backup.validateAndRefreshToken upstream now nowRefresh store req).refreshCalls =
        [Backup.refreshTokenOf store req]) ∧
    (Backup.expiresAtOf store req = none →
      (Backup.validateAndRefreshToken upstream now nowRefresh store req).refreshCalls = []) := by
  have hexp : Backup.isTokenExpired now
      { access_token := Backup.accessTokenOf req
        refresh_token := Backup.refreshTokenOf store req
        expires_at := Backup.expiresAtOf store req, token_type := none } = true ↔
      ∃ e, Backup.expiresAtOf store req = some e ∧ e ≠ 0 ∧ now > e - 300000 :=
    isTokenExpired_true_iff now _
  simp only [Backup.validateAndRefreshToken, hacc]
  by_cases hr : truthyStr (Backup.refreshTokenOf store req) = true
  · by_cases he : Backup.isTokenExpired now
        { access_token := Backup.accessTokenOf req
          refresh_token := Backup.refreshTokenOf store req
          expires_at := Backup.expiresAtOf store req, token_type := none } = true
    · have hex := hexp.mp he
      obtain ⟨e, hE, h0, hlt⟩ := hex
      simp only [hr, he]
      cases hres : Backup.refreshAccessToken upstream nowRefresh store
          (Backup.refreshTokenOf store req) "default" with
      | mk out store1 =>
        cases out with
        | ok t =>
          simp
          exact ⟨⟨e, hE, h0, hlt⟩, by simp [hE]⟩
        | error err =>
          simp
          exact ⟨⟨e, hE, h0, hlt⟩, by simp [hE]⟩
    · have hne : ¬ ∃ e, Backup.expiresAtOf store req = some e ∧ e ≠ 0 ∧ now > e - 300000 :=
        fun hx => he (hexp.mpr hx)
      simp [hr, he, hne]
  · simp [hr]

/-- C4 (witness): a request whose stored token is inside the five-minute
window does trigger a refresh attempt. -/
theorem refresh_attempted_iff_witness :
    truthyStr (Backup.accessTokenOf requestWithoutExpiry) = true ∧
    (Backup.validateAndRefreshToken refusingUpstream 1000 1000
        [("default", tokenExpiringSoon)] requestWithoutExpiry).refreshCalls ≠ [] :=
  ⟨by decide,
   (refresh_attempted_iff refusingUpstream 1000 1000 [("default", tokenExpiringSoon)]
      requestWithoutExpiry (by decide)).1.mpr
     ⟨by decide, 2000, by decide, by decide, by decide⟩⟩

/-- C8: a protected request with no access token (no Authorization header of
the form `Bearer <token>` and no `access_token` in the body) is answered with
status 401 and body `{error: "Access token missing"}`; `next` is not called, no
refresh is attempted and the token store is unchanged, whatever refresh token
the headers, the store or the body hold. -/
theorem missing_access_token_rejected (upstream : Upstream) (now nowRefresh : Int)
    (store : Backup.TokenStore) (req : Backup.Request)
    (hheader : ∀ h t, req.headers.authorization = some h → h = "Bearer " ++ t → t = "")
    (hbody : ∀ b a, req.body = some b → b.access_token = some a → a = "") :
    (Backup.validateAndRefreshToken upstream now nowRefresh store req).response =
        some ⟨401, errorBody "Access token missing"⟩ ∧
    (Backup.validateAndRefreshToken upstream now nowRefresh store req).nextCalled = false ∧
    (Backup.validateAndRefreshToken upstream now nowRefresh store req).refreshCalls = [] ∧
    (Backup.validateAndRefreshToken upstream now nowRefresh store req).store = store := by
  have hacc : truthyStr (Backup.accessTokenOf req) = false := by
    have hh := headerAccessToken_falsy req hheader
    unfold Backup.accessTokenOf
    cases hb : req.body with
    | none => simpa using hh
    | some b =>
      have hb1 : truthyStr b.access_token = false := by
        cases ha : b.access_token with
        | none => rfl
        | some a =>
          have := hbody b a hb ha
          subst this
          rfl
      simp [hb1, hh]
  simp [Backup.validateAndRefreshToken, hacc]

/-- C8 (witness): a request with only refresh tokens, on a store that holds
one too. -/
theorem missing_access_token_rejected_witness :
    (Backup.validateAndRefreshToken refusingUpstream 1000 1000
        [("default", tokenExpiringSoon)] requestWithoutAccessToken).response =
        some ⟨401, errorBody "Access token missing"⟩ ∧
    (Backup.validateAndRefreshToken refusingUpstream 1000 1000
        [("default", tokenExpiringSoon)] requestWithoutAccessToken).nextCalled = false ∧
    (Backup.validateAndRefreshToken refusingUpstream 1000 1000
        [("default", tokenExpiringSoon)] requestWithoutAccessToken).refreshCalls = [] ∧
    (Backup.validateAndRefreshToken refusingUpstream 1000 1000
        [("default", tokenExpiringSoon)] requestWithoutAccessToken).store =
        [("default", tokenExpiringSoon)] :=
  missing_access_token_rejected refusingUpstream 1000 1000 [("default", tokenExpiringSoon)]
    requestWithoutAccessToken
    (fun h t hh ht => by
      obtain rfl : "Basic xyz" = h := Option.some.inj hh
      exact absurd ((startsWith_iff _ _).mpr ⟨t, ht⟩) (by decide))
    (fun b a hb ha => by
      obtain rfl := Option.some.inj hb
      cases ha)

/-- C9: the middleware takes the access token from the Authorization header
when it carries a Bearer token and otherwise from `body.access_token`; it takes
the refresh token from the `x-refresh-token` header when present, otherwise from
the TokenData stored for user "default", otherwise from `body.refresh_token`; a
body value never overrides a header or stored value.  These are the tokens the
middleware then refreshes with or hands on. -/
theorem token_sources (store : Backup.TokenStore) (req : Backup.Request) :
    (∀ t, t ≠ "" → ' ' ∉ t.data → req.headers.authorization = some ("Bearer " ++ t) →
        Backup.accessTokenOf req = some t) ∧
    ((∀ h t, req.headers.authorization = some h → h = "Bearer " ++ t → t = "") →
        ∀ b, req.body = some b → truthyStr b.access_token = true →
          Backup.accessTokenOf req = b.access_token) ∧
    (truthyStr req.headers.xRefreshToken = true →
        Backup.refreshTokenOf store req = req.headers.xRefreshToken) ∧
    (truthyStr req.headers.xRefreshToken = false →
        ∀ t, Backup.storeGet store "default" = some t → truthyStr t.refresh_token = true →
          Backup.refreshTokenOf store req = t.refresh_token) ∧
    (truthyStr req.headers.xRefreshToken = false →
        truthyStr ((Backup.storeGet store "default").bind (·.refresh_token)) = false →
        ∀ b, req.body = some b → truthyStr b.refresh_token = true →
          Backup.refreshTokenOf store req = b.refresh_token) ∧
    (∀ (upstream : Upstream) (now nowRefresh : Int),
        truthyStr (Backup.accessTokenOf req) = true →
        (Backup.validateAndRefreshToken upstream now nowRefresh store req).refreshCalls =
            [Backup.refreshTokenOf store req] ∨
        ((Backup.validateAndRefreshToken upstream now nowRefresh store req).reqAccessToken =
            Backup.accessTokenOf req ∧
         (Backup.validateAndRefreshToken upstream now nowRefresh store req).reqTokenData =
            some { access_token := Backup.accessTokenOf req
                   refresh_token := Backup.refreshTokenOf store req
                   expires_at := Backup.expiresAtOf store req, token_type := none })) := by
  refine ⟨?_, ?_, ?_, ?_, ?_, ?_⟩
  · intro t ht hsp hauth
    have hhead : Backup.headerAccessToken req = some t := by
      unfold Backup.headerAccessToken
      rw [hauth]
      have h1 : startsWith ("Bearer " ++ t) "Bearer " = true :=
        (startsWith_iff _ _).mpr ⟨t, rfl⟩
      have h2 : ("Bearer " ++ t) ≠ "" := by
        intro h
        have := congrArg String.data h
        simp [String.data_append] at this
      simp [h1, h2, bearer_token_split t hsp]
    have htr : truthyStr (some t) = true := (truthyStr_some t).mpr ht
    unfold Backup.accessTokenOf
    cases req.body with
    | none => simp [hhead]
    | some b => simp [hhead, htr]
  · intro hheader b hb hacc
    have hh := headerAccessToken_falsy req hheader
    unfold Backup.accessTokenOf
    simp [hb, hacc, hh]
  · intro hx
    unfold Backup.refreshTokenOf
    have h1 := orStr_of_truthy req.headers.xRefreshToken
      ((Backup.storeGet store "default").bind (·.refresh_token)) hx
    cases req.body with
    | none => simp [h1]
    | some b => simp [h1, hx]
  · intro hx t hst htr
    unfold Backup.refreshTokenOf
    have h1 := orStr_of_falsy req.headers.xRefreshToken
      ((Backup.storeGet store "default").bind (·.refresh_token)) hx
    have h2 : (Backup.storeGet store "default").bind (·.refresh_token) = t.refresh_token := by
      simp [hst]
    rw [h1, h2]
    cases req.body with
    | none => rfl
    | some b => simp [htr]
  · intro hx hst b hb htr
    unfold Backup.refreshTokenOf
    have h1 := orStr_of_falsy req.headers.xRefreshToken
      ((Backup.storeGet store "default").bind (·.refresh_token)) hx
    simp [hb, h1, hst, htr]
  · intro upstream now nowRefresh hacc
    simp only [Backup.validateAndRefreshToken, hacc, Bool.not_true, Bool.false_eq_true, if_false]
    by_cases hc : (truthyStr (Backup.refreshTokenOf store req) &&
        Backup.isTokenExpired now
          { access_token := Backup.accessTokenOf req
            refresh_token := Backup.refreshTokenOf store req
            expires_at := Backup.expiresAtOf store req, token_type := none }) = true
    · left
      rw [if_pos hc]
      cases hres : Backup.refreshAccessToken upstream nowRefresh store
          (Backup.refreshTokenOf store req) "default" with
      | mk out store1 =>
        cases out with
        | ok t => rfl
        | error err => rfl
    · right
      rw [if_neg hc]
      exact ⟨rfl, rfl⟩

/-- C5: on a successful refresh with original refresh token `r`, the handler of
`POST /oauth/refresh` in `server.js`, the function `refreshAccessToken` and the
handler of `POST /oauth/refresh` in `backup.js` all return the refresh token `r`
when the upstream credentials carry none, and the upstream one when it supplies
a new one; `backup.js` stores that same TokenData. -/
theorem refresh_token_round_trip (upstream : Upstream) (refresh : Server.TokenRefresh)
    (now : Int) (store : Backup.TokenStore) (userId : String) (body : Server.OAuthBody)
    (r cid cs expected : String) (c : Credentials)
    (hr : r ≠ "") (hbody : body.refresh_token = .str r)
    (hcid : body.client_id = .str cid) (hcs : body.client_secret = .str cs)
    (hcid1 : Server.stripZeroWidth cid ≠ "") (hcs1 : Server.stripZeroWidth cs ≠ "")
    (hup : upstream (some r) = .ok c)
    (hre : refresh (Server.stripZeroWidth cid) (Server.stripZeroWidth cs) (.str r) = .ok c)
    (hexp : (c.refresh_token = none ∧ expected = r) ∨
            (c.refresh_token = some expected ∧ expected ≠ "")) :
    (Server.oauthRefresh refresh now body).status = 200 ∧
    (Server.oauthRefresh refresh now body).field "refresh_token" = .str expected ∧
    (∃ t, (Backup.refreshAccessToken upstream now store (some r) userId).1 = .ok t ∧
        t.refresh_token = some expected ∧
        Backup.storeGet (Backup.refreshAccessToken upstream now store (some r) userId).2 userId
          = some t) ∧
    (Backup.oauthRefresh upstream now store (some r)).1.status = 200 ∧
    (Backup.oauthRefresh upstream now store (some r)).1.field "refresh_token" = .str expected ∧
    (∃ t, Backup.storeGet (Backup.oauthRefresh upstream now store (some r)).2 "default" = some t ∧
        t.refresh_token = some expected) := by
  have hor : orStr c.refresh_token (some r) = some expected := by
    rcases hexp with ⟨h1, h2⟩ | ⟨h1, h2⟩
    · simp [orStr, h1, truthyStr, h2]
    · simp [orStr, h1, truthyStr, h2]
  have htr : truthyStr (some r) = true := (truthyStr_some r).mpr hr
  have htv : (JsVal.str r).truthy = true := by simpa [JsVal.truthy] using hr
  have h1 : truthyStr (some (Server.stripZeroWidth cid)) = true := (truthyStr_some _).mpr hcid1
  have h2 : truthyStr (some (Server.stripZeroWidth cs)) = true := (truthyStr_some _).mpr hcs1
  have hpick : (if truthyStr c.refresh_token then ofStr c.refresh_token else JsVal.str r) =
      .str expected := by
    rcases hexp with ⟨e1, e2⟩ | ⟨e1, e2⟩
    · simp [e1, truthyStr, e2]
    · simp [e1, truthyStr, e2, ofStr]
  refine ⟨?_, ?_, ?_, ?_, ?_, ?_⟩
  · simp [Server.oauthRefresh, hbody, hcid, hcs, htv, h1, h2, hre, Response.ok,
      Server.strippedString]
  · simp only [Server.oauthRefresh, hbody, hcid, hcs, htv, h1, h2, hre, Response.ok,
      Server.strippedString, Response.field, Bool.not_true, Bool.or_self, Bool.false_eq_true,
      if_false, Option.getD_some, hpick]
    simp [getProp]
  · simp [Backup.refreshAccessToken, hup, hor, storeGet_storeSet]
  · simp [Backup.oauthRefresh, htr, Backup.refreshAccessToken, hup, Response.ok]
  · simp [Backup.oauthRefresh, htr, Backup.refreshAccessToken, hup, Response.ok, Response.field,
      TokenData.toJs, getProp, hor, ofStr]
  · simp [Backup.oauthRefresh, htr, Backup.refreshAccessToken, hup, hor, storeGet_storeSet]

/-- C5 (witness): an upstream that returns no refresh token, original token
`"r0"`. -/
theorem refresh_token_round_trip_witness :
    (Server.oauthRefresh (fun _ _ _ => .ok freshCredentials) 1000 refreshBody).field
        "refresh_token" = .str "r0" ∧
    (Backup.oauthRefresh (fun _ => .ok freshCredentials) 1000 [] (some "r0")).1.field
        "refresh_token" = .str "r0" :=
  have h := refresh_token_round_trip (fun _ => .ok freshCredentials)
    (fun _ _ _ => .ok freshCredentials) 1000 [] "default" refreshBody "r0" "id" "secret" "r0"
    freshCredentials (by decide) rfl rfl rfl (by decide) (by decide) rfl rfl
    (Or.inl ⟨rfl, rfl⟩)
  ⟨h.2.1, h.2.2.2.2.1⟩

/-! ## The direct endpoints -/

/-- C6: whatever rows the Sheets API returns, `GET /get-entries` answers 200
with, in sheet order, one record per non-blank row and none for a blank one; a
row is dropped exactly when it is empty or its first cell is empty once
trimmed; the k-th kept row becomes `{id: k, fields: {name: cell 0, email: cell 1}}`
with a missing cell rendered as `""`.  The rows `[["Alice","a@x.com"],["",""]]`
yield the single record `{id: 0, fields: {name: "Alice", email: "a@x.com"}}`. -/
theorem getEntries_records (cfg : Backup.Config) (w : World) (access_token : Option String)
    (rows : List (List String)) :
    (w.valuesGet (Backup.requestClient cfg access_token)
        (SdkCall.valuesGet (ofStr cfg.SPREADSHEET_ID) "Sheet1!A1:B1000") = .ok (some rows) →
      (Backup.getEntries cfg w access_token).response =
        ⟨200, .obj [("data", .arr (expectedRecords 0 rows))]⟩) ∧
    (∀ row, keepRow row = false ↔ (row = [] ∨ ∃ cell rest, row = cell :: rest ∧ jsTrim cell = "")) ∧
    (expectedRecords 0 rows).length = (rows.filter (fun row => !isBlankRow row)).length ∧
    (∀ (k : Nat) (row : List String),
      (rows.filter (fun row => !isBlankRow row))[k]? = some row →
      (expectedRecords 0 rows)[k]? =
        some (JsVal.obj [("id", .num k),
                    ("fields", .obj [("name", .str (row.headD "")),
                                     ("email", .str (row.getD 1 ""))])])) ∧
    expectedRecords 0 [["Alice", "a@x.com"], ["", ""]] =
      [.obj [("id", .num 0),
             ("fields", .obj [("name", .str "Alice"), ("email", .str "a@x.com")])]] := by
  refine ⟨?_, ?_, ?_, ?_, ?_⟩
  · intro h
    simp only [Backup.getEntries, h, Response.ok, Option.getD]
    have := mapIdx_entryRecord rows 0
    simp only [Nat.add_zero] at this
    rw [this]
  · intro row
    cases row with
    | nil => simp [keepRow]
    | cons cell rest => simp [keepRow]
  · exact (expectedRecords_spec rows 0).1
  · intro k row hk
    have := (expectedRecords_spec rows 0).2 k row hk
    simpa using this
  · simp [expectedRecords, isBlankRow, jsTrim, isJsWhitespace]

/-- C6 (witness): a sheet with one named row and one blank row. -/
theorem getEntries_records_witness :
    (Backup.getEntries ⟨none, none, some "sheet"⟩ aliceWorld (some "tok")).response =
      ⟨200, .obj [("data", .arr (expectedRecords 0 [["Alice", "a@x.com"], ["", ""]]))]⟩ :=
  (getEntries_records ⟨none, none, some "sheet"⟩ aliceWorld (some "tok")
    [["Alice", "a@x.com"], ["", ""]]).1 rfl

theorem toDouble_small (n : Int) (h : n.natAbs ≤ 9007199254740992) : toDouble n = n := by
  simp [toDouble, h]

theorem jsAdd_one_small (r : Nat) (h : r < 9007199254740992) : jsAdd (r : Int) 1 = r + 1 := by
  have h1 : toDouble (r : Int) = r := toDouble_small _ (by simp; omega)
  have h2 : toDouble (1 : Int) = 1 := toDouble_small _ (by decide)
  have h3 : toDouble ((r : Int) + 1) = r + 1 := toDouble_small _ (by omega)
  simp [jsAdd, h1, h2, h3]

theorem jsSub_one_small (r : Nat) (h : r < 9007199254740992) :
    jsSub ((r : Int) + 1) 1 = r := by
  have h1 : toDouble (r : Int) = r := toDouble_small _ (by simp; omega)
  have h2 : toDouble (1 : Int) = 1 := toDouble_small _ (by decide)
  have h3 : toDouble ((r : Int) + 1) = r + 1 := toDouble_small _ (by omega)
  simp [jsSub, h1, h2, h3]

/-- C7 (counterexample): for the row index 2^53 = 9007199254740992, where
`rowIndex + 1` rounds back to 2^53, `DELETE /delete-entry` sends the range from
2^53 - 1 to 2^53 (the row before) and the `delete` operation of
`google-sheets-crud` sends the empty range from 2^53 to 2^53; neither is the
range from `r` to `r + 1`. -/
theorem delete_row_range_fails_at_two_pow_53 :
    (Backup.deleteEntry ⟨none, none, some "sheet"⟩ aliceWorld (some "tok")
        deleteRowHugeBody).calls =
      [(Backup.requestClient ⟨none, none, some "sheet"⟩ (some "tok"),
        SdkCall.batchUpdate (.str "sheet")
          [.deleteDimension { sheetId := 0, dimension := "ROWS"
                              startIndex := 9007199254740991
                              endIndex := 9007199254740992 }])] ∧
    (Server.blockExecute aliceWorld (fun _ => .ok .null)
        { blockId := "google-sheets-crud", operation := "delete"
          params := some [("recordId", .num 9007199254740992)]
          credentials := none }).effects.tail =
      [Server.Effect.sdk (BlockConfigs.authClientOf (Server.normalizeCredentials []))
        (SdkCall.batchUpdate .undefined
          [.deleteDimension { sheetId := 0, dimension := "ROWS"
                              startIndex := 9007199254740992
                              endIndex := 9007199254740992 }])] ∧
    (9007199254740991 : Int) ≠ 9007199254740992 ∧
    (9007199254740992 : Int) ≠ 9007199254740992 + 1 := by
  refine ⟨by rfl, by rfl, by decide, by decide⟩

/-- C7 (amended): for a row index `r` that is a non-negative integer below
2^53 = 9007199254740992, `DELETE /delete-entry` with `rowIndex = r` and the
`delete` operation of `google-sheets-crud` with `recordId = r` each make one SDK
call, a `batchUpdate` with the single request `deleteDimension` on sheet 0,
dimension ROWS, `startIndex = r`, `endIndex = r + 1`. -/
theorem delete_row_range (r : Nat) (cfg : Backup.Config) (w : World) (axios : Server.Axios)
    (access_token : Option String) (body : Backup.Body)
    (params : JsObject) (credentials : Option JsObject)
    (hr : r < 9007199254740992)
    (hbody : body.rowIndex = some (r : Int))
    (hparams : getProp params "recordId" = .num (r : Int)) :
    (Backup.deleteEntry cfg w access_token body).calls =
      [(Backup.requestClient cfg access_token,
        SdkCall.batchUpdate (ofStr cfg.SPREADSHEET_ID)
          [.deleteDimension { sheetId := 0, dimension := "ROWS"
                              startIndex := r, endIndex := r + 1 }])] ∧
    (Server.blockExecute w axios
        { blockId := "google-sheets-crud", operation := "delete"
          params := some params, credentials := credentials }).effects.tail =
      [Server.Effect.sdk
        (BlockConfigs.authClientOf (Server.normalizeCredentials (credentials.getD [])))
        (SdkCall.batchUpdate
          (getProp (Server.normalizeCredentials (credentials.getD [])) "spreadsheetId")
          [.deleteDimension { sheetId := 0, dimension := "ROWS"
                              startIndex := r, endIndex := r + 1 }])] := by
  have hadd := jsAdd_one_small r hr
  have hsub := jsSub_one_small r hr
  have hdbl : toDouble (r : Int) = r := toDouble_small _ (by simp; omega)
  constructor
  · simp only [Backup.deleteEntry, hbody, hadd, hsub]
    cases w.write (Backup.requestClient cfg access_token)
        (SdkCall.batchUpdate (ofStr cfg.SPREADSHEET_ID)
          [.deleteDimension { sheetId := 0, dimension := "ROWS"
                              startIndex := (r : Int), endIndex := (r : Int) + 1 }]) with
    | ok u => rfl
    | error err => rfl
  · have hrec : getProp (Server.normalizeParams
          (Server.normalizeCredentials (credentials.getD [])) params) "recordId" = .num (r : Int) := by
      rw [getProp_normalizeParams _ _ _ (by decide) (by decide) (by decide)]
      exact hparams
    have hb : Server.lookupKey BlockConfigs.blockConfigs "google-sheets-crud" =
        .own BlockConfigs.googleSheetsCrud := by rfl
    have ho : Server.lookupKey BlockConfigs.googleSheetsCrud.operations "delete" =
        .own (.imperative ⟨"googlesheets", "DELETE", BlockConfigs.sheetsDelete⟩) := by rfl
    simp only [Server.blockExecute, hb, ho, Option.getD_some, BlockConfigs.sheetsDelete, hrec,
      JsVal.toNumber, hdbl, hadd]
    cases w.write (BlockConfigs.authClientOf (Server.normalizeCredentials (credentials.getD [])))
        (SdkCall.batchUpdate
          (getProp (Server.normalizeCredentials (credentials.getD [])) "spreadsheetId")
          [.deleteDimension { sheetId := 0, dimension := "ROWS"
                              startIndex := r, endIndex := r + 1 }]) with
    | ok u => simp
    | error err => simp

/-- C7 (witness): row index 2 gives the half-open range from 2 to 3. -/
theorem delete_row_range_witness :
    (Backup.deleteEntry ⟨none, none, some "sheet"⟩ aliceWorld (some "tok")
        deleteRowTwoBody).calls =
      [(Backup.requestClient ⟨none, none, some "sheet"⟩ (some "tok"),
        SdkCall.batchUpdate (.str "sheet")
          [.deleteDimension { sheetId := 0, dimension := "ROWS"
                              startIndex := 2, endIndex := 3 }])] :=
  (delete_row_range 2 ⟨none, none, some "sheet"⟩ aliceWorld (fun _ => .ok .null) (some "tok")
    deleteRowTwoBody [("recordId", .num 2)] none (by decide) rfl rfl).1

/-! ## The dispatcher -/

/-- The dispatcher on a block id that is neither configured nor a member of
`Object.prototype`: 400 `Block not found`, and no call at all. -/
theorem unknown_block_id (w : World) (axios : Server.Axios) (body : Server.ExecuteBody)
    (hconf : body.blockId ∉ ["airtable-crud", "gmail_search_emails", "google-sheets-crud"])
    (hproto : body.blockId ∉ Server.objectPrototypeKeys) :
    Server.blockExecute w axios body = ⟨⟨400, errorBody "Block not found"⟩, []⟩ := by
  simp only [List.mem_cons, List.mem_singleton, List.not_mem_nil, or_false, not_or] at hconf
  obtain ⟨h1, h2, h3⟩ := hconf
  have hown : Server.lookupOwn BlockConfigs.blockConfigs body.blockId = none := by
    simp [Server.lookupOwn, BlockConfigs.blockConfigs, Ne.symm h1, Ne.symm h2, Ne.symm h3]
  have hk : Server.lookupKey BlockConfigs.blockConfigs body.blockId = .absent := by
    simp [Server.lookupKey, hown, hproto]
  simp [Server.blockExecute, hk]

/-- C1 (failing input): the block id `"constructor"` is not a configured block
id, yet the dispatcher answers with status 500 (the message of a TypeError) instead
of 400 `Block not found`; it makes no call. -/
theorem inherited_block_id_answers_500 (w : World) (axios : Server.Axios) (operation : String)
    (params credentials : Option JsObject) :
    "constructor" ∉ ["airtable-crud", "gmail_search_emails", "google-sheets-crud"] ∧
    (Server.blockExecute w axios
        { blockId := "constructor", operation := operation
          params := params, credentials := credentials }).response.status = 500 ∧
    (Server.blockExecute w axios
        { blockId := "constructor", operation := operation
          params := params, credentials := credentials }).effects = [] := by
  have hk : Server.lookupKey BlockConfigs.blockConfigs "constructor" = .inherited := by rfl
  refine ⟨by decide, ?_, ?_⟩
  · simp [Server.blockExecute, hk, Server.executionError]
  · simp [Server.blockExecute, hk]

/-- C2: for each of the four operations of `airtable-crud` and every params
object in which a required field of the operation is missing, the dispatcher
answers 400 `Missing required fields` and calls neither a builder nor the HTTP
client. -/
theorem missing_required_fields (w : World) (axios : Server.Axios) (operation f : String)
    (params credentials : Option JsObject)
    (hop : operation ∈ ["fetch", "create", "update", "delete"])
    (hf : f ∈ Server.requiredFieldsOf "airtable-crud" operation)
    (hmiss : getProp (params.getD []) f = .undefined) :
    Server.blockExecute w axios
        { blockId := "airtable-crud", operation := operation
          params := params, credentials := credentials } =
      ⟨⟨400, errorBody "Missing required fields"⟩, []⟩ := by
  have hb : Server.lookupKey BlockConfigs.blockConfigs "airtable-crud" =
      .own BlockConfigs.airtableCrud := by rfl
  simp only [List.mem_cons, List.mem_singleton, List.not_mem_nil, or_false] at hop
  rcases hop with rfl | rfl | rfl | rfl
  · have hf1 : f = "baseId" ∨ f = "tableName" := by
      simpa [Server.requiredFieldsOf, Server.lookupOwn, BlockConfigs.blockConfigs,
        BlockConfigs.airtableCrud] using hf
    rcases hf1 with rfl | rfl <;>
      simp [Server.blockExecute, hb, Server.lookupKey, Server.lookupOwn,
        BlockConfigs.airtableCrud, Server.executeRest, hmiss, JsVal.truthy]
  · have hf1 : f = "baseId" ∨ f = "tableName" := by
      simpa [Server.requiredFieldsOf, Server.lookupOwn, BlockConfigs.blockConfigs,
        BlockConfigs.airtableCrud] using hf
    rcases hf1 with rfl | rfl <;>
      simp [Server.blockExecute, hb, Server.lookupKey, Server.lookupOwn,
        BlockConfigs.airtableCrud, Server.executeRest, hmiss, JsVal.truthy]
  · have hf1 : f = "baseId" ∨ f = "tableName" ∨ f = "recordId" := by
      simpa [Server.requiredFieldsOf, Server.lookupOwn, BlockConfigs.blockConfigs,
        BlockConfigs.airtableCrud] using hf
    rcases hf1 with rfl | rfl | rfl <;>
      simp [Server.blockExecute, hb, Server.lookupKey, Server.lookupOwn,
        BlockConfigs.airtableCrud, Server.executeRest, hmiss, JsVal.truthy]
  · have hf1 : f = "baseId" ∨ f = "tableName" ∨ f = "recordId" := by
      simpa [Server.requiredFieldsOf, Server.lookupOwn, BlockConfigs.blockConfigs,
        BlockConfigs.airtableCrud] using hf
    rcases hf1 with rfl | rfl | rfl <;>
      simp [Server.blockExecute, hb, Server.lookupKey, Server.lookupOwn,
        BlockConfigs.airtableCrud, Server.executeRest, hmiss, JsVal.truthy]

/-- C2 (witness): `update` on a params object that has no `recordId`. -/
theorem missing_required_fields_witness :
    Server.blockExecute aliceWorld (fun _ => .ok .null)
        { blockId := "airtable-crud", operation := "update"
          params := some [("baseId", .str "b"), ("tableName", .str "t")]
          credentials := none } =
      ⟨⟨400, errorBody "Missing required fields"⟩, []⟩ :=
  missing_required_fields aliceWorld (fun _ => .ok .null) "update" "recordId"
    (some [("baseId", .str "b"), ("tableName", .str "t")]) none (by decide) (by decide) rfl

/-- C10 (counterexample): with the client secret supplied under the camelCase
key `clientSecret`, the executor of `gmail_search_emails.fetch` receives the
client id and the access token but no client secret: `credentials.secretId` is
`undefined`, also in the OAuth2 client it builds. -/
theorem camelCase_secret_not_received :
    (Server.executorCredentials
      (Server.blockExecute aliceWorld (fun _ => .ok .null)
        { blockId := "gmail_search_emails", operation := "fetch"
          params := none, credentials := some camelCaseCredentials })).map
      (fun c => (getProp c "clientId", getProp c "secretId", getProp c "access_token",
                 (BlockConfigs.authClientOf c).clientSecret)) =
      some (.str "id", .undefined, .str "tok", .undefined) := by
  rfl

/-- C10 (amended): for every imperative operation of the table and every
credentials object that supplies the client id under `clientId` or `client_id`,
the client secret under `secretId` or `client_secret` and the access token
under `access_token` or `accessToken`, the executor is called, and the fields
it reads (`credentials.clientId`, `credentials.secretId`,
`credentials.access_token`) hold supplied values: the value under the key the
executor reads when there is one, else the value under the other key. -/
theorem executor_receives_credentials (w : World) (axios : Server.Axios)
    (blockId operation : String) (block : BlockConfigs.Block) (op : BlockConfigs.ImperativeOp)
    (params : Option JsObject) (credentials : JsObject)
    (hblock : Server.lookupOwn BlockConfigs.blockConfigs blockId = some block)
    (hop : Server.lookupOwn block.operations operation = some (.imperative op))
    (hid : (getProp credentials "clientId").truthy = true ∨
           (getProp credentials "client_id").truthy = true)
    (hsecret : (getProp credentials "secretId").truthy = true ∨
               (getProp credentials "client_secret").truthy = true)
    (htoken : (getProp credentials "access_token").truthy = true ∨
              (getProp credentials "accessToken").truthy = true) :
    ∃ c, Server.executorCredentials
          (Server.blockExecute w axios
            { blockId := blockId, operation := operation
              params := params, credentials := some credentials }) = some c ∧
      getProp c "clientId" =
        (if (getProp credentials "clientId").truthy then getProp credentials "clientId"
         else getProp credentials "client_id") ∧
      getProp c "secretId" =
        (if (getProp credentials "secretId").truthy then getProp credentials "secretId"
         else getProp credentials "client_secret") ∧
      getProp c "access_token" =
        (if (getProp credentials "access_token").truthy then getProp credentials "access_token"
         else getProp credentials "accessToken") ∧
      (getProp c "clientId").truthy = true ∧ (getProp c "secretId").truthy = true ∧
      (getProp c "access_token").truthy = true := by
  have hb : Server.lookupKey BlockConfigs.blockConfigs blockId = .own block := by
    simp [Server.lookupKey, hblock]
  have ho : Server.lookupKey block.operations operation = .own (.imperative op) := by
    simp [Server.lookupKey, hop]
  have hn := normalizeCredentials_fields credentials
  obtain ⟨n1, n2, n3⟩ := hn
  refine ⟨Server.normalizeCredentials credentials, ?_, n1 hid, n2 hsecret, n3, ?_, ?_, ?_⟩
  · simp only [Server.blockExecute, hb, ho, Option.getD_some]
    cases (op.execute w (Server.normalizeCredentials credentials)
        (Server.normalizeParams (Server.normalizeCredentials credentials)
          (params.getD []))).result with
    | ok v => rfl
    | error e => rfl
  · rw [n1 hid]
    rcases hid with h | h
    · simp [h]
    · split <;> simp_all
  · rw [n2 hsecret]
    rcases hsecret with h | h
    · simp [h]
    · split <;> simp_all
  · rw [n3]
    rcases htoken with h | h
    · simp [h]
    · split <;> simp_all

/-- C10 (witness): snake_case credentials reach the executor of
`gmail_search_emails.fetch`. -/
theorem executor_receives_credentials_witness :
    ∃ c, Server.executorCredentials
          (Server.blockExecute aliceWorld (fun _ => .ok .null)
            { blockId := "gmail_search_emails", operation := "fetch"
              params := none, credentials := some snakeCaseCredentials }) = some c ∧
      getProp c "clientId" = .str "id" ∧ getProp c "secretId" = .str "sec" ∧
      getProp c "access_token" = .str "tok" := by
  obtain ⟨c, h0, h1, h2, h3, _⟩ :=
    executor_receives_credentials aliceWorld (fun _ => .ok .null) "gmail_search_emails" "fetch"
      BlockConfigs.gmailSearchEmails ⟨"gmail", "POST", BlockConfigs.gmailFetch⟩ none
      snakeCaseCredentials rfl rfl (Or.inr rfl) (Or.inr rfl) (Or.inl rfl)
  exact ⟨c, h0, h1, h2, h3⟩

/-! ## Errors of the SDK in the direct endpoints -/

theorem sdkErrorResponse_maps (err : JsError) (msg : String) :
    mapsSdkError err msg (Backup.sdkErrorResponse err msg) := by
  unfold mapsSdkError Backup.sdkErrorResponse
  by_cases h : err.code = some 401 ∨ err.code = some 403
  · simp [h]
  · simp [h, errorBody, Response.field, getProp]

theorem allOk_error_of_mem {α : Type} (l : List (Except JsError α)) (e : JsError)
    (h : Except.error e ∈ l) : ∃ e1, allOk l = .error e1 ∧ Except.error e1 ∈ l := by
  induction l with
  | nil => simp at h
  | cons x rest ih =>
    cases x with
    | error e0 => exact ⟨e0, by simp [allOk], by simp⟩
    | ok a =>
      have hr : Except.error e ∈ rest := by
        simpa using h
      obtain ⟨e1, h1, h2⟩ := ih hr
      exact ⟨e1, by simp [allOk, h1], by simp [h2]⟩

/-- C11: in each direct endpoint (`/add-entry`, `/get-entries`, `/update-entry`,
`/delete-entry`, `/gmail/search`) an error thrown by the SDK call is answered
with 401 `{error: "Authentication failed", requiresReauth: true}` when its code
is 401 or 403, and otherwise with 500 and the generic `{error}` body of the
endpoint, which carries no `requiresReauth`. -/
theorem sdk_error_mapping (cfg : Backup.Config) (w : World) (access_token : Option String)
    (body : Backup.Body) (err : JsError) :
    (body.values.truthy = true →
      w.write (Backup.requestClient cfg access_token)
        (SdkCall.valuesAppend (ofStr cfg.SPREADSHEET_ID) "Sheet1!A1" "RAW" [body.values])
          = .error err →
      mapsSdkError err "Error adding entry" (Backup.addEntry cfg w access_token body).response) ∧
    (w.valuesGet (Backup.requestClient cfg access_token)
        (SdkCall.valuesGet (ofStr cfg.SPREADSHEET_ID) "Sheet1!A1:B1000") = .error err →
      mapsSdkError err "Failed to fetch entries" (Backup.getEntries cfg w access_token).response) ∧
    (∀ rowIndex : Int, body.rowIndex = some rowIndex → body.values.truthy = true →
      w.write (Backup.requestClient cfg access_token)
        (SdkCall.valuesUpdate (ofStr cfg.SPREADSHEET_ID)
          ("Sheet1!A" ++ toString (jsAdd rowIndex 1)) "RAW" [body.values]) = .error err →
      mapsSdkError err "Error updating entry"
        (Backup.updateEntry cfg w access_token body).response) ∧
    (∀ rowIndex : Int, body.rowIndex = some rowIndex →
      w.write (Backup.requestClient cfg access_token)
        (SdkCall.batchUpdate (ofStr cfg.SPREADSHEET_ID)
          [.deleteDimension { sheetId := 0, dimension := "ROWS"
                              startIndex := jsSub (jsAdd rowIndex 1) 1
                              endIndex := jsAdd rowIndex 1 }])
          = .error err →
      mapsSdkError err "Error deleting entry"
        (Backup.deleteEntry cfg w access_token body).response) ∧
    (truthyStr body.query = true →
      w.messagesList (Backup.requestClient cfg access_token)
        (SdkCall.messagesList "me" (ofStr body.query) 10) = .error err →
      mapsSdkError err "Error searching emails"
        (Backup.gmailSearch cfg w access_token body).response) ∧
    (∀ (found : Option (List String)) (id : String), truthyStr body.query = true →
      w.messagesList (Backup.requestClient cfg access_token)
        (SdkCall.messagesList "me" (ofStr body.query) 10) = .ok found →
      id ∈ found.getD [] →
      w.messagesGet (Backup.requestClient cfg access_token)
        (SdkCall.messagesGet "me" id "metadata" ["From", "Subject", "Date"]) = .error err →
      ∃ thrown : JsError,
        (∃ id1 ∈ found.getD [],
          w.messagesGet (Backup.requestClient cfg access_token)
            (SdkCall.messagesGet "me" id1 "metadata" ["From", "Subject", "Date"])
              = .error thrown) ∧
        mapsSdkError thrown "Error searching emails"
          (Backup.gmailSearch cfg w access_token body).response) := by
  refine ⟨?_, ?_, ?_, ?_, ?_, ?_⟩
  · intro hv hw
    simp only [Backup.addEntry, hv, hw]
    exact sdkErrorResponse_maps err _
  · intro hw
    simp only [Backup.getEntries, hw]
    exact sdkErrorResponse_maps err _
  · intro rowIndex hr hv hw
    simp only [Backup.updateEntry, hr, hv, hw]
    exact sdkErrorResponse_maps err _
  · intro rowIndex hr hw
    simp only [Backup.deleteEntry, hr, hw]
    exact sdkErrorResponse_maps err _
  · intro hq hw
    simp only [Backup.gmailSearch, hq, hw]
    exact sdkErrorResponse_maps err _
  · intro found id hq hl hid hg
    have hmem : Except.error err ∈
        ((found.getD []).map (fun id =>
          SdkCall.messagesGet "me" id "metadata" ["From", "Subject", "Date"])).map
          (fun c => w.messagesGet (Backup.requestClient cfg access_token) c) := by
      simp only [List.map_map, List.mem_map, Function.comp]
      exact ⟨id, hid, hg⟩
    obtain ⟨e1, h1, h2⟩ := allOk_error_of_mem _ err hmem
    refine ⟨e1, ?_, ?_⟩
    · simp only [List.map_map, List.mem_map, Function.comp] at h2
      obtain ⟨id1, hid1, hg1⟩ := h2
      exact ⟨id1, hid1, hg1⟩
    · simp only [Backup.gmailSearch, hq, hl, h1]
      exact sdkErrorResponse_maps e1 _

/-- C11 (witness): `GET /get-entries` when the SDK call is refused with code
403. -/
theorem sdk_error_mapping_witness :
    (Backup.getEntries ⟨none, none, some "sheet"⟩ forbiddenWorld (some "tok")).response.status
      = 401 :=
  (((sdk_error_mapping ⟨none, none, some "sheet"⟩ forbiddenWorld (some "tok") deleteRowTwoBody
      ⟨"forbidden", some 403⟩).2.1 rfl).1 (Or.inr rfl)).1

/-! ## The outcome of a refresh in the middleware -/

theorem storeGet_storeSet_ne (store : Backup.TokenStore) (userId k : String) (t : TokenData)
    (h : k ≠ userId) :
    Backup.storeGet (Backup.storeSet store userId t) k = Backup.storeGet store k := by
  induction store with
  | nil => simp [Backup.storeSet, Backup.storeGet, Ne.symm h]
  | cons p rest ih =>
    obtain ⟨k1, v1⟩ := p
    by_cases h1 : k1 = userId
    · subst h1
      simp [Backup.storeSet, Backup.storeGet, Ne.symm h]
    · by_cases h2 : k1 = k
      · subst h2
        simp [Backup.storeSet, Backup.storeGet, h1]
      · simp [Backup.storeSet, Backup.storeGet, h1, h2, ih]

theorem refresh_attempt_conditions (upstream : Upstream) (now nowRefresh : Int)
    (store : Backup.TokenStore) (req : Backup.Request)
    (hatt : (Backup.validateAndRefreshToken upstream now nowRefresh store req).refreshCalls ≠ []) :
    truthyStr (Backup.accessTokenOf req) = true ∧
    (truthyStr (Backup.refreshTokenOf store req) &&
      Backup.isTokenExpired now
        { access_token := Backup.accessTokenOf req
          refresh_token := Backup.refreshTokenOf store req
          expires_at := Backup.expiresAtOf store req, token_type := none }) = true := by
  by_cases hacc : truthyStr (Backup.accessTokenOf req) = true
  · refine ⟨hacc, ?_⟩
    by_contra hc
    apply hatt
    simp only [Backup.validateAndRefreshToken, hacc, Bool.not_true, Bool.false_eq_true, if_false]
    rw [if_neg hc]
  · exfalso
    apply hatt
    have hf : truthyStr (Backup.accessTokenOf req) = false := by simpa using hacc
    simp [Backup.validateAndRefreshToken, hf]

/-- C12: when the middleware attempts a refresh and it fails, the response is
401 `{error: "Token refresh failed", requiresReauth: true}`, `next` is not called
and the token store is as before the request; when it succeeds, the entry of
user "default" is the refreshed TokenData as a whole (nothing of the old entry
is kept, other entries are untouched), the headers `X-New-Access-Token` (the new
access token) and `X-Token-Refreshed` (`"true"`) are set, `next` is called and
the request carries the new access token. -/
theorem refresh_outcome (upstream : Upstream) (now nowRefresh : Int)
    (store : Backup.TokenStore) (req : Backup.Request)
    (hatt : (Backup.validateAndRefreshToken upstream now nowRefresh store req).refreshCalls ≠ []) :
    (∀ e, upstream (Backup.refreshTokenOf store req) = .error e →
      (Backup.validateAndRefreshToken upstream now nowRefresh store req).response =
        some ⟨401, .obj [("error", .str "Token refresh failed"),
                         ("requiresReauth", .bool true)]⟩ ∧
      (Backup.validateAndRefreshToken upstream now nowRefresh store req).nextCalled = false ∧
      (Backup.validateAndRefreshToken upstream now nowRefresh store req).store = store) ∧
    (∀ c, upstream (Backup.refreshTokenOf store req) = .ok c →
      ∃ t : TokenData,
        t.access_token = c.access_token ∧
        t.refresh_token = orStr c.refresh_token (Backup.refreshTokenOf store req) ∧
        t.expires_at = orNum c.expiry_date (some (nowRefresh + 3600 * 1000)) ∧
        t.token_type = orStr c.token_type (some "Bearer") ∧
        Backup.storeGet
          (Backup.validateAndRefreshToken upstream now nowRefresh store req).store "default"
            = some t ∧
        (∀ k, k ≠ "default" →
          Backup.storeGet
            (Backup.validateAndRefreshToken upstream now nowRefresh store req).store k
              = Backup.storeGet store k) ∧
        (Backup.validateAndRefreshToken upstream now nowRefresh store req).resHeaders =
          [("X-New-Access-Token", Backup.headerValue c.access_token),
           ("X-Token-Refreshed", "true")] ∧
        (∀ a, c.access_token = some a →
          (Backup.validateAndRefreshToken upstream now nowRefresh store req).resHeaders =
            [("X-New-Access-Token", a), ("X-Token-Refreshed", "true")]) ∧
        (Backup.validateAndRefreshToken upstream now nowRefresh store req).response = none ∧
        (Backup.validateAndRefreshToken upstream now nowRefresh store req).nextCalled = true ∧
        (Backup.validateAndRefreshToken upstream now nowRefresh store req).reqAccessToken =
          c.access_token ∧
        (Backup.validateAndRefreshToken upstream now nowRefresh store req).reqTokenData =
          some t) := by
  obtain ⟨hacc, hc⟩ := refresh_attempt_conditions upstream now nowRefresh store req hatt
  constructor
  · intro e he
    simp only [Backup.validateAndRefreshToken, hacc, Bool.not_true, Bool.false_eq_true, if_false]
    rw [if_pos hc]
    simp [Backup.refreshAccessToken, he]
  · intro c hok
    refine ⟨{ access_token := c.access_token
              refresh_token := orStr c.refresh_token (Backup.refreshTokenOf store req)
              expires_at := orNum c.expiry_date (some (nowRefresh + 3600 * 1000))
              token_type := orStr c.token_type (some "Bearer") }, rfl, rfl, rfl, rfl, ?_⟩
    simp only [Backup.validateAndRefreshToken, hacc, Bool.not_true, Bool.false_eq_true, if_false]
    rw [if_pos hc]
    simp only [Backup.refreshAccessToken, hok]
    refine ⟨storeGet_storeSet _ _ _, fun k hk => storeGet_storeSet_ne _ _ _ _ hk,
      ?_, ?_, ?_, ?_, ?_, ?_⟩
    all_goals first
      | trivial
      | rfl
      | (intro a ha; simp [ha, Backup.headerValue])

/-- C12 (witness): a stored token inside the five-minute window and an
upstream that grants the refresh. -/
theorem refresh_outcome_witness :
    (Backup.validateAndRefreshToken grantingUpstream 1000 1000
        [("default", tokenExpiringSoon)] requestWithoutExpiry).resHeaders =
      [("X-New-Access-Token", "a1"), ("X-Token-Refreshed", "true")] := by
  obtain ⟨t, _, _, _, _, _, _, _, h, _⟩ :=
    (refresh_outcome grantingUpstream 1000 1000 [("default", tokenExpiringSoon)]
      requestWithoutExpiry (by decide)).2 freshCredentials rfl
  exact h "a1" rfl

/-! ## Operation lookup and the inputs of an executor -/

/-- The dispatcher on a configured block and an operation that is neither one
of its operations nor a member of `Object.prototype`: 400 `Operation not found`,
and no call at all. -/
theorem unknown_operation (w : World) (axios : Server.Axios) (body : Server.ExecuteBody)
    (block : BlockConfigs.Block)
    (hblock : Server.lookupOwn BlockConfigs.blockConfigs body.blockId = some block)
    (hown : Server.lookupOwn block.operations body.operation = none)
    (hproto : body.operation ∉ Server.objectPrototypeKeys) :
    Server.blockExecute w axios body = ⟨⟨400, errorBody "Operation not found"⟩, []⟩ := by
  have hb : Server.lookupKey BlockConfigs.blockConfigs body.blockId = .own block := by
    simp [Server.lookupKey, hblock]
  have ho : Server.lookupKey block.operations body.operation = .absent := by
    simp [Server.lookupKey, hown, hproto]
  simp [Server.blockExecute, hb, ho]

/-- An unknown block id never gives `Operation not found`: the block lookup
is decided first. -/
theorem unknown_block_status (w : World) (axios : Server.Axios) (body : Server.ExecuteBody)
    (hconf : body.blockId ∉ ["airtable-crud", "gmail_search_emails", "google-sheets-crud"]) :
    (Server.blockExecute w axios body).effects = [] ∧
    ((Server.blockExecute w axios body).response.status = 400 ∧
        (Server.blockExecute w axios body).response.body = errorBody "Block not found" ∨
      (Server.blockExecute w axios body).response.status = 500) := by
  simp only [List.mem_cons, List.mem_singleton, List.not_mem_nil, or_false, not_or] at hconf
  obtain ⟨h1, h2, h3⟩ := hconf
  have hown : Server.lookupOwn BlockConfigs.blockConfigs body.blockId = none := by
    simp [Server.lookupOwn, BlockConfigs.blockConfigs, Ne.symm h1, Ne.symm h2, Ne.symm h3]
  by_cases hp : body.blockId ∈ Server.objectPrototypeKeys
  · have hk : Server.lookupKey BlockConfigs.blockConfigs body.blockId = .inherited := by
      simp [Server.lookupKey, hown, hp]
    simp [Server.blockExecute, hk, Server.executionError]
  · have hk : Server.lookupKey BlockConfigs.blockConfigs body.blockId = .absent := by
      simp [Server.lookupKey, hown, hp]
    simp [Server.blockExecute, hk]

/-- C13 (failing input): on the configured block `airtable-crud`, the operation
name `"constructor"` is not one of its operations, yet the dispatcher answers
with status 500 (the message of a TypeError) instead of 400 `Operation not
found`; it makes no call. -/
theorem inherited_operation_answers_500 (w : World) (axios : Server.Axios)
    (params credentials : Option JsObject) :
    "constructor" ∉ ["fetch", "create", "update", "delete"] ∧
    Server.lookupOwn BlockConfigs.airtableCrud.operations "constructor" = none ∧
    (Server.blockExecute w axios
        { blockId := "airtable-crud", operation := "constructor"
          params := params, credentials := credentials }).response =
      ⟨500, errorBody "op.buildUrl is not a function"⟩ ∧
    (Server.blockExecute w axios
        { blockId := "airtable-crud", operation := "constructor"
          params := params, credentials := credentials }).effects = [] := by
  have hb : Server.lookupKey BlockConfigs.blockConfigs "airtable-crud" =
      .own BlockConfigs.airtableCrud := by rfl
  have ho : Server.lookupKey BlockConfigs.airtableCrud.operations "constructor" =
      .inherited := by rfl
  refine ⟨by decide, by rfl, ?_, ?_⟩
  · simp [Server.blockExecute, hb, ho, Server.executionError]
  · simp [Server.blockExecute, hb, ho]

/-- The part of the fix-up of `params` that follows what the client supplied:
`dataFields` is the supplied `dataFields`, else the supplied `fields`, else the
`params` object itself; a supplied `valuesArray` is kept. -/
theorem normalizeParams_supplied (credentials params : JsObject) :
    ((getProp params "dataFields").truthy = true →
      getProp (Server.normalizeParams credentials params) "dataFields" =
        getProp params "dataFields") ∧
    ((getProp params "dataFields").truthy = false → (getProp params "fields").truthy = true →
      getProp (Server.normalizeParams credentials params) "dataFields" =
        getProp params "fields") ∧
    ((getProp params "dataFields").truthy = false → (getProp params "fields").truthy = false →
      getProp (Server.normalizeParams credentials params) "dataFields" = .paramsRef) ∧
    ((getProp params "valuesArray").truthy = true →
      getProp (Server.normalizeParams credentials params) "valuesArray" =
        getProp params "valuesArray") := by
  have e1 : ("valuesArray" : String) ≠ "dataFields" := by decide
  have e2 : ("spreadsheetId" : String) ≠ "dataFields" := by decide
  have e3 : ("spreadsheetId" : String) ≠ "fields" := by decide
  have e4 : ("spreadsheetId" : String) ≠ "valuesArray" := by decide
  have e5 : ("dataFields" : String) ≠ "valuesArray" := by decide
  unfold Server.normalizeParams
  by_cases hs : (!(getProp params "spreadsheetId").truthy &&
      (getProp credentials "spreadsheetId").truthy) = true
  · refine ⟨?_, ?_, ?_, ?_⟩
    · intro h
      simp [hs, getProp_setProp_same, getProp_setProp_ne, e1, e2, e3, e4, e5, h]
    · intro h h1
      simp [hs, getProp_setProp_same, getProp_setProp_ne, e1, e2, e3, e4, e5, h, h1]
    · intro h h1
      simp [hs, getProp_setProp_same, getProp_setProp_ne, e1, e2, e3, e4, e5, h, h1]
    · intro h
      simp [hs, getProp_setProp_same, getProp_setProp_ne, e1, e2, e3, e4, e5, h]
  · refine ⟨?_, ?_, ?_, ?_⟩
    · intro h
      simp [hs, getProp_setProp_same, getProp_setProp_ne, e1, e2, e3, e4, e5, h]
    · intro h h1
      simp [hs, getProp_setProp_same, getProp_setProp_ne, e1, e2, e3, e4, e5, h, h1]
    · intro h h1
      simp [hs, getProp_setProp_same, getProp_setProp_ne, e1, e2, e3, e4, e5, h, h1]
    · intro h
      simp [hs, getProp_setProp_same, getProp_setProp_ne, e1, e2, e3, e4, e5, h]

/-- C15 (failing input): for `google-sheets-crud.create` with the flat params
`{name: "Alice", email: "a@x.com"}` (no `dataFields`, `fields` or `valuesArray`),
the executor receives `dataFields` = the `params` object itself and `valuesArray`
= `["Alice", "a@x.com", params]`: the values of the raw params followed by the
`params` object, which by then has the property `dataFields`.  It is not the
list `["Alice", "a@x.com"]` of the values the client sent. -/
theorem values_array_holds_params_itself :
    Server.executorInputs
      (Server.blockExecute aliceWorld (fun _ => .ok .null)
        { blockId := "google-sheets-crud", operation := "create"
          params := some flatParams, credentials := none }) =
      some [("name", .str "Alice"), ("email", .str "a@x.com"), ("dataFields", .paramsRef),
            ("valuesArray", .arr [.str "Alice", .str "a@x.com", .paramsRef])] ∧
    JsVal.arr [.str "Alice", .str "a@x.com", .paramsRef] ≠
      JsVal.arr (flatParams.map (·.2)) := by
  refine ⟨by rfl, ?_⟩
  intro h
  simp [flatParams] at h

/-! ## Stripping zero-width characters -/

theorem trim_decompose (p : Char → Bool) (l : List Char) :
    ∃ lead trail : List Char,
      l = lead ++ ((l.dropWhile p).reverse.dropWhile p).reverse ++ trail ∧
      (∀ c ∈ lead, p c = true) ∧ (∀ c ∈ trail, p c = true) := by
  have h1 := List.takeWhile_append_dropWhile p l
  have h2 := List.takeWhile_append_dropWhile p (l.dropWhile p).reverse
  have h3 := congrArg List.reverse h2
  simp only [List.reverse_append, List.reverse_reverse] at h3
  refine ⟨l.takeWhile p, ((l.dropWhile p).reverse.takeWhile p).reverse, ?_, ?_, ?_⟩
  · rw [List.append_assoc, h3, h1]
  · intro c hc
    exact List.mem_takeWhile_imp hc
  · intro c hc
    exact List.mem_takeWhile_imp (List.mem_reverse.mp hc)

theorem trim_head (p : Char → Bool) (l : List Char) (c : Char)
    (h : (((l.dropWhile p).reverse.dropWhile p).reverse).head? = some c) : p c = false := by
  have hpre : ((l.dropWhile p).reverse.dropWhile p).reverse <+: l.dropWhile p :=
    List.rdropWhile_prefix p (l.dropWhile p)
  obtain ⟨t, ht⟩ := hpre
  cases hT : ((l.dropWhile p).reverse.dropWhile p).reverse with
  | nil => rw [hT] at h; simp at h
  | cons a rest =>
    rw [hT] at h ht
    simp only [List.head?_cons, Option.some.injEq] at h
    subst h
    have hnot := List.head?_dropWhile_not p l
    rw [← ht] at hnot
    simpa using hnot

theorem trim_last (p : Char → Bool) (l : List Char) (c : Char)
    (h : (((l.dropWhile p).reverse.dropWhile p).reverse).getLast? = some c) : p c = false := by
  rw [List.getLast?_reverse] at h
  have hnot := List.head?_dropWhile_not p (l.dropWhile p).reverse
  rw [h] at hnot
  simpa using hnot

theorem trim_subset (p : Char → Bool) (l : List Char) (c : Char)
    (h : c ∈ ((l.dropWhile p).reverse.dropWhile p).reverse) : c ∈ l := by
  have h1 : c ∈ (l.dropWhile p).reverse := (List.dropWhile_suffix p).subset (List.mem_reverse.mp h)
  exact (List.dropWhile_suffix p).subset (List.mem_reverse.mp h1)

theorem trim_idem (p : Char → Bool) (l : List Char) :
    (((((l.dropWhile p).reverse.dropWhile p).reverse).dropWhile p).reverse.dropWhile p).reverse =
      ((l.dropWhile p).reverse.dropWhile p).reverse := by
  have hd : (((l.dropWhile p).reverse.dropWhile p).reverse).dropWhile p =
      ((l.dropWhile p).reverse.dropWhile p).reverse := by
    cases hT : ((l.dropWhile p).reverse.dropWhile p).reverse with
    | nil => rfl
    | cons a rest =>
      have ha : p a = false := trim_head p l a (by rw [hT]; rfl)
      simp [List.dropWhile, ha]
  rw [hd]
  exact List.rdropWhile_idempotent p (l.dropWhile p)

theorem trim_all_whitespace (p : Char → Bool) (l : List Char) (h : ∀ c ∈ l, p c = true) :
    ((l.dropWhile p).reverse.dropWhile p).reverse = [] := by
  have h1 : l.dropWhile p = [] := List.dropWhile_eq_nil_iff.mpr h
  simp [h1]

/-- C14: for every string `s`, `stripZeroWidth s` is `s` with the zero-width
characters U+200B, U+200C, U+200D, U+FEFF deleted and the leading and trailing
whitespace of what remains removed; the result holds none of those characters,
has no leading and no trailing whitespace, and stripping it again changes
nothing.  A `client_id` or `client_secret` made only of such characters and
whitespace strips to the empty string and is rejected by `/oauth/callback` and
`/oauth/refresh` with status 400, as missing. -/
theorem stripZeroWidth_spec (s : String) :
    (∃ lead trail : List Char,
      s.data.filter (fun c => !Server.isZeroWidth c) =
        lead ++ (Server.stripZeroWidth s).data ++ trail ∧
      (∀ c ∈ lead, isJsWhitespace c = true) ∧ (∀ c ∈ trail, isJsWhitespace c = true)) ∧
    (∀ c ∈ (Server.stripZeroWidth s).data,
      c.toNat ≠ 0x200B ∧ c.toNat ≠ 0x200C ∧ c.toNat ≠ 0x200D ∧ c.toNat ≠ 0xFEFF) ∧
    (∀ c, (Server.stripZeroWidth s).data.head? = some c → isJsWhitespace c = false) ∧
    (∀ c, (Server.stripZeroWidth s).data.getLast? = some c → isJsWhitespace c = false) ∧
    Server.stripZeroWidth (Server.stripZeroWidth s) = Server.stripZeroWidth s ∧
    ((∀ c ∈ s.data, Server.isZeroWidth c = true ∨ isJsWhitespace c = true) →
      Server.stripZeroWidth s = "" ∧
      ∀ (exchange : Server.TokenExchange) (refresh : Server.TokenRefresh) (now : Int)
        (body : Server.OAuthBody),
        (body.client_id = .str s ∨ body.client_secret = .str s) →
        (Server.oauthCallback exchange now body).status = 400 ∧
        (Server.oauthRefresh refresh now body).status = 400 ∧
        (body.code.truthy = true → body.redirect_uri.truthy = true →
          (Server.oauthCallback exchange now body).body =
            errorBody "Missing client_id or client_secret in request body") ∧
        (body.refresh_token.truthy = true →
          (Server.oauthRefresh refresh now body).body =
            errorBody "Missing client_id or client_secret in request body")) := by
  have hmem : ∀ c ∈ (Server.stripZeroWidth s).data, Server.isZeroWidth c = false := by
    intro c hc
    have h1 := trim_subset isJsWhitespace _ c hc
    have h2 := (List.mem_filter.mp h1).2
    simpa using h2
  refine ⟨?_, ?_, ?_, ?_, ?_, ?_⟩
  · exact trim_decompose isJsWhitespace _
  · intro c hc
    have h := hmem c hc
    simp only [Server.isZeroWidth, Bool.or_eq_false_iff, Bool.and_eq_false_iff,
      decide_eq_false_iff_not, beq_eq_false_iff_ne, ne_eq] at h
    omega
  · intro c hc
    exact trim_head isJsWhitespace _ c hc
  · intro c hc
    exact trim_last isJsWhitespace _ c hc
  · have hf : (Server.stripZeroWidth s).data.filter (fun c => !Server.isZeroWidth c) =
        (Server.stripZeroWidth s).data := by
      rw [List.filter_eq_self]
      intro c hc
      simp [hmem c hc]
    show jsTrim (String.mk ((Server.stripZeroWidth s).data.filter
      (fun c => !Server.isZeroWidth c))) = Server.stripZeroWidth s
    rw [hf]
    apply String.ext
    exact trim_idem isJsWhitespace _
  · intro hall
    have hempty : Server.stripZeroWidth s = "" := by
      apply String.ext
      apply trim_all_whitespace
      intro c hc
      have h1 := List.mem_filter.mp hc
      rcases hall c h1.1 with hz | hw
      · simp [hz] at h1
      · exact hw
    refine ⟨hempty, ?_⟩
    intro exchange refresh now body hb
    have hmissing : (!truthyStr (Server.strippedString body.client_id) ||
        !truthyStr (Server.strippedString body.client_secret)) = true := by
      rcases hb with h | h
      · simp [h, hempty, truthyStr, Server.strippedString]
      · simp [h, hempty, truthyStr, Server.strippedString]
    refine ⟨?_, ?_, ?_, ?_⟩
    · unfold Server.oauthCallback
      split
      · rfl
      · simp only [hmissing, if_true]
    · unfold Server.oauthRefresh
      split
      · rfl
      · simp only [hmissing, if_true]
    · intro hc hr
      simp only [Server.oauthCallback, hc, hr, Bool.not_true, Bool.or_self, Bool.false_eq_true,
        if_false, hmissing, if_true]
    · intro hr
      simp only [Server.oauthRefresh, hr, Bool.not_true, Bool.false_eq_true, if_false,
        hmissing, if_true]

/-- C14 (witness): a `client_id` made of a zero-width space, a space and a byte
order mark is rejected by `/oauth/refresh`. -/
theorem stripZeroWidth_spec_witness :
    (Server.oauthRefresh (fun _ _ _ => .ok freshCredentials) 1000 invisibleIdBody).body =
      errorBody "Missing client_id or client_secret in request body" :=
  (((stripZeroWidth_spec invisibleId).2.2.2.2.2 (by decide)).2
      (fun _ _ _ _ => .ok freshCredentials) (fun _ _ _ => .ok freshCredentials) 1000
      invisibleIdBody (Or.inl rfl)).2.2.2 (by decide)

end Ezyr
